import Mathlib

/-!
Verification development for the NeMO manifest-validation Azure functions
(repository `ow-umb-nemo-az-functions`).

The definitions below are a shallow embedding of the Python sources:

* `bundle_entity.py` — the bundle completeness state machine
  (`FileBundle` and its thirteen subclasses);
* `file_entity.py`   — the filename classification patterns,
  `determine_fastq_component_filetype`, `file_entity_factory`,
  and `FileEntity.set_state` / `record_error`;
* `manifest.py`      — the per-row classification loop of
  `Manifest.validate_manifest_file`.

Python strings are embedded as Lean `String` where only equality and
membership are needed, and as `List Char` where positional operations
(regex-style searching and splitting) are needed.  Python exceptions are
embedded as explicit `Except` / flag results.  All definitions are
executable.
-/

/-- ASCII lower-casing of one character, mirroring Python `str.lower` on the
ASCII strings that occur in this repository. -/
def lowerChar (c : Char) : Char :=
  if 'A' ≤ c ∧ c ≤ 'Z' then Char.ofNat (c.toNat + 32) else c

/-- Python `str.lower` on the (ASCII) strings of this repository. -/
def pyLower (s : String) : String :=
  String.mk (s.data.map lowerChar)

/-! ## Bundle entities (`bundle_entity.py`)

A component file entity, restricted to the attributes that
`FileBundle.validate_contents` and its overrides read:
`file_subtype`, `technique` (from the manifest `Technique` column),
`sample_id`, `validated_dir` (which is `None` for every entity built during
manifest validation), plus `file_type`, `file_pfx` (the source attribute
`file_prefix`) and `is_bundled`, which the grouping step reads. -/
structure FileEnt where
  file_type : String
  file_subtype : String
  file_pfx : List Char
  technique : String
  sample_id : String
  validated_dir : Option String
  is_bundled : Bool
deriving DecidableEq, Repr, Inhabited

/-- The error messages that `validate_contents` methods record, one
constructor per `record_error` call site in `bundle_entity.py` (the format
arguments that matter for the spec are kept; the surrounding message text
is not).  `sample_mismatch` and `path_mismatch` are the two preamble errors
of `FileBundle.validate_contents` (lines 310-317); `dup_subtype` is the
duplicate-subtype error each subclass records; `missing_subtype` is the
"Missing ... subtype file" error; `only_one_fastq` is the long-read error of
`FastqBundle.validate_contents` (line 473). -/
inductive BErr where
  | sample_mismatch
  | path_mismatch
  | dup_subtype
  | missing_subtype (subtype : String)
  | only_one_fastq
deriving DecidableEq, Repr

/-- Mutable state of a `FileBundle`: its `state` string and its `errors`
list. -/
structure BState where
  state : String
  errors : List BErr
deriving DecidableEq, Repr

/-- `FileBundle.STATES` (bundle_entity.py line 47). -/
def FileBundle.STATES : List String :=
  ["NOT BUNDLED", "INVALID", "VALID", "RELEASED"]

/-- `FileBundle.record_error`: append to the `errors` list (line 242);
logging is a side effect outside the embedded state. -/
def FileBundle.record_error (b : BState) (e : BErr) : BState :=
  { b with errors := b.errors ++ [e] }

/-- `FileBundle.set_state` (lines 264-279): the assignment
`self.state = new_state` is unconditional; an unknown state only produces a
log line (see `FileBundle.set_state_logs`). -/
def FileBundle.set_state (b : BState) (s : String) : BState :=
  { b with state := s }

/-- Whether `FileBundle.set_state` emits its "non-existing state" log line:
only when a logger was set up (`is_validation=True` at construction) and the
new state is not in `STATES` (lines 275-278). -/
def FileBundle.set_state_logs (logger_present : Bool) (new_state : String) : Bool :=
  logger_present && ! (FileBundle.STATES.contains new_state)

/-- A freshly constructed bundle: `state = "NOT BUNDLED"`, no errors
(`FileBundle.__init__`, lines 52-59). -/
def FileBundle.init : BState :=
  { state := "NOT BUNDLED", errors := [] }

/-- The abstract `FileBundle.validate_contents` preamble (lines 297-317):
record an error and set INVALID when the component files disagree on
`sample_id`, and likewise for `validated_dir`.  Python collects the values
into a set and compares its size with 1; `List.dedup` plays the set. -/
def FileBundle.validate_contents (files : List FileEnt) (b : BState) : BState :=
  let b :=
    if 1 < ((files.map FileEnt.sample_id).dedup.length) then
      FileBundle.set_state (FileBundle.record_error b BErr.sample_mismatch) ("INVALID")
    else b
  if 1 < ((files.map FileEnt.validated_dir).dedup.length) then
    FileBundle.set_state (FileBundle.record_error b BErr.path_mismatch) ("INVALID")
  else b

/-- The duplicate-subtype check shared by every subclass:
`if not len(file_subtypes) == len(file_uniq_subtypes)` then record the
multiple-files-of-the-same-subtype error and set INVALID. -/
def dupSubtypeCheck (subs : List String) (b : BState) : BState :=
  if subs.length = subs.dedup.length then b
  else FileBundle.set_state (FileBundle.record_error b BErr.dup_subtype) ("INVALID")

/-- The `for subtype in [...]` requirement loop shared by the subclasses:
for each required subtype missing from `subs`, record a missing-subtype
error and set INVALID. -/
def requireSubtypes (req : List String) (subs : List String) (b : BState) : BState :=
  req.foldl
    (fun b st =>
      if st ∈ subs then b
      else FileBundle.set_state (FileBundle.record_error b (BErr.missing_subtype st)) ("INVALID"))
    b

/-- The shared finalization step `if self.state == "NOT BUNDLED": self.set_state("VALID")`. -/
def finalizeValid (b : BState) : BState :=
  if b.state = "NOT BUNDLED" then FileBundle.set_state b ("VALID") else b

/-- `BamBundle.validate_contents` (lines 325-347).  The `BAM_IDX` check only
logs a warning. -/
def BamBundle.validate_contents (files : List FileEnt) : BState :=
  let b := FileBundle.validate_contents files FileBundle.init
  let subs := files.map FileEnt.file_subtype
  let b := dupSubtypeCheck subs b
  let b := requireSubtypes (["BAM"]) subs b
  finalizeValid b

/-- `CellHashBundle.validate_contents` (lines 355-391). -/
def CellHashBundle.validate_contents (files : List FileEnt) : BState :=
  let b := FileBundle.validate_contents files FileBundle.init
  let subs := files.map FileEnt.file_subtype
  let b := dupSubtypeCheck subs b
  let b :=
    if ("CELLHASH_FASTQ_I2") ∈ subs then
      requireSubtypes (["CELLHASH_FASTQ_I1", "CELLHASH_FASTQ_R1", "CELLHASH_FASTQ_R2"]) subs b
    else if ("CELLHASH_FASTQ_I1") ∈ subs ∨ ("CELLHASH_FASTQ_R3") ∈ subs then
      requireSubtypes (["CELLHASH_FASTQ_R1", "CELLHASH_FASTQ_R2"]) subs b
    else if ("CELLHASH_FASTQ_R2") ∈ subs then
      requireSubtypes (["CELLHASH_FASTQ_R1"]) subs b
    else if ("CELLHASH_CSV") ∈ subs then
      requireSubtypes (["CELLHASH_FASTQ_R1", "CELLHASH_FASTQ_R2"]) subs b
    else b
  finalizeValid b

/-- `CramBundle.validate_contents` (lines 399-421). -/
def CramBundle.validate_contents (files : List FileEnt) : BState :=
  let b := FileBundle.validate_contents files FileBundle.init
  let subs := files.map FileEnt.file_subtype
  let b := dupSubtypeCheck subs b
  let b := requireSubtypes (["CRAM"]) subs b
  finalizeValid b

/-- `CSVBundle.validate_contents` (lines 429-445). -/
def CSVBundle.validate_contents (files : List FileEnt) : BState :=
  let b := FileBundle.validate_contents files FileBundle.init
  let subs := files.map FileEnt.file_subtype
  let b := dupSubtypeCheck subs b
  let b := requireSubtypes (["CSV"]) subs b
  finalizeValid b

/-- `FastqBundle.validate_contents` (lines 453-513).  Faithful points:
the long-read branch compares `component_file_entities[0].technique` with
the lower-cased literals, and its inner condition tests whether the
lower-cased technique literal is a member of the set of file *subtypes*
(line 472: `"PacBio long read sequencing".lower() in file_uniq_subtypes`);
when it fires it records an error but does not call `set_state`. -/
def FastqBundle.validate_contents (files : List FileEnt) : BState :=
  let b := FileBundle.validate_contents files FileBundle.init
  let subs := files.map FileEnt.file_subtype
  let uniq := subs.dedup
  let b := dupSubtypeCheck subs b
  let tech := (files.headD default).technique
  let b :=
    if tech = pyLower ("PacBio long read sequencing") ∨
       tech = pyLower ("Oxford Nanopore long read sequencing") then
      if uniq.length ≠ 1 ∧ (pyLower ("PacBio long read sequencing")) ∈ uniq then
        FileBundle.record_error b BErr.only_one_fastq
      else b
    else if pyLower tech = "sci-rna-seq3" then
      if ("FASTQ_INDEX1") ∈ subs then
        requireSubtypes (["FASTQ_READ2", "FASTQ_READ1"]) subs b
      else if ("FASTQ_READ1") ∈ subs then
        requireSubtypes (["FASTQ_READ2"]) subs b
      else b
    else
      if ("FASTQ_INDEX2") ∈ subs then
        requireSubtypes (["FASTQ_INDEX1", "FASTQ_READ1", "FASTQ_READ2"]) subs b
      else if ("FASTQ_INDEX1") ∈ subs ∨ ("FASTQ_READ3") ∈ subs then
        requireSubtypes (["FASTQ_READ1", "FASTQ_READ2"]) subs b
      else if ("FASTQ_READ2") ∈ subs then
        requireSubtypes (["FASTQ_READ1"]) subs b
      else b
  finalizeValid b

/-- `FPKMBundle.validate_contents` (lines 521-537). -/
def FPKMBundle.validate_contents (files : List FileEnt) : BState :=
  let b := FileBundle.validate_contents files FileBundle.init
  let subs := files.map FileEnt.file_subtype
  let b := dupSubtypeCheck subs b
  let b := requireSubtypes (["GENES_FPKM", "ISOFORMS_FPKM"]) subs b
  finalizeValid b

/-- `H5ADBundle.validate_contents` (lines 545-564). -/
def H5ADBundle.validate_contents (files : List FileEnt) : BState :=
  let b := FileBundle.validate_contents files FileBundle.init
  let subs := files.map FileEnt.file_subtype
  let b := dupSubtypeCheck subs b
  let b := requireSubtypes (["H5AD"]) subs b
  finalizeValid b

/-- `MEXBundle.validate_contents` (lines 572-595). -/
def MEXBundle.validate_contents (files : List FileEnt) : BState :=
  let b := FileBundle.validate_contents files FileBundle.init
  let subs := files.map FileEnt.file_subtype
  let b := dupSubtypeCheck subs b
  let b :=
    if ("MEX_PEAK") ∈ subs then
      requireSubtypes (["MEX_BARCODES", "MEX_PEAK", "MEX_MTX"]) subs b
    else
      requireSubtypes (["MEX_BARCODES", "MEX_GENES", "MEX_MTX"]) subs b
  finalizeValid b

/-- `SnapBundle.validate_contents` (lines 603-623).  The final comparison in
the source is `if self.state == "NOT_BUNDLED"` — with an underscore, while
the state set by the constructor is `"NOT BUNDLED"` with a space — and is
embedded verbatim. -/
def SnapBundle.validate_contents (files : List FileEnt) : BState :=
  let b := FileBundle.validate_contents files FileBundle.init
  let subs := files.map FileEnt.file_subtype
  let b := dupSubtypeCheck subs b
  let b := requireSubtypes (["SNAP"]) subs b
  if b.state = "NOT_BUNDLED" then FileBundle.set_state b ("VALID") else b

/-- `TabAnalysisBundle.validate_contents` (lines 631-647). -/
def TabAnalysisBundle.validate_contents (files : List FileEnt) : BState :=
  let b := FileBundle.validate_contents files FileBundle.init
  let subs := files.map FileEnt.file_subtype
  let b := dupSubtypeCheck subs b
  let b := requireSubtypes (["TAB_ANALYSIS_COL", "TAB_ANALYSIS_ROW", "TAB_ANALYSIS_DIMRED"]) subs b
  finalizeValid b

/-- `TabCountsBundle.validate_contents` (lines 655-674). -/
def TabCountsBundle.validate_contents (files : List FileEnt) : BState :=
  let b := FileBundle.validate_contents files FileBundle.init
  let subs := files.map FileEnt.file_subtype
  let b := dupSubtypeCheck subs b
  let b := requireSubtypes (["TAB_COUNTS_COL", "TAB_COUNTS_ROW", "TAB_COUNTS_MTX"]) subs b
  finalizeValid b

/-- `TSVBundle.validate_contents` (lines 682-702).  The source ends with an
unconditional `self.set_state("VALID")` — not guarded by
`if self.state == "NOT BUNDLED"` as in the other subclasses — and is
embedded verbatim. -/
def TSVBundle.validate_contents (files : List FileEnt) : BState :=
  let b := FileBundle.validate_contents files FileBundle.init
  let subs := files.map FileEnt.file_subtype
  let b := dupSubtypeCheck subs b
  let b := requireSubtypes (["TSV"]) subs b
  FileBundle.set_state b ("VALID")

/-- `VcfBundle.validate_contents` (lines 710-732). -/
def VcfBundle.validate_contents (files : List FileEnt) : BState :=
  let b := FileBundle.validate_contents files FileBundle.init
  let subs := files.map FileEnt.file_subtype
  let b := dupSubtypeCheck subs b
  let b := requireSubtypes (["VCF"]) subs b
  finalizeValid b

/-- `BUNDLE_LOOKUP` (lines 735-749): the thirteen bundleable kinds and their
`validate_contents`; any other file type raises `KeyError` in
`bundle_entity_factory`, embedded as `none`. -/
def BUNDLE_LOOKUP (file_type : String) : Option (List FileEnt → BState) :=
  match file_type with
  | "BAM" => some BamBundle.validate_contents
  | "CELLHASH" => some CellHashBundle.validate_contents
  | "CRAM" => some CramBundle.validate_contents
  | "CSV" => some CSVBundle.validate_contents
  | "FASTQ" => some FastqBundle.validate_contents
  | "FPKM" => some FPKMBundle.validate_contents
  | "H5AD" => some H5ADBundle.validate_contents
  | "MEX" => some MEXBundle.validate_contents
  | "SNAP" => some SnapBundle.validate_contents
  | "TAB_ANALYSIS" => some TabAnalysisBundle.validate_contents
  | "TAB_COUNTS" => some TabCountsBundle.validate_contents
  | "TSV" => some TSVBundle.validate_contents
  | "VCF" => some VcfBundle.validate_contents
  | _ => none

/-! ## Concrete entities used as inputs in the theorems below -/

/-- A SNAP component file as produced by manifest validation. -/
def snapFile : FileEnt :=
  { file_type := "SNAP", file_subtype := "SNAP", file_pfx := "sampleS".data,
    technique := "snatac-seq", sample_id := "s1", validated_dir := none, is_bundled := true }

/-- A TSV component file as produced by manifest validation. -/
def tsvFile : FileEnt :=
  { file_type := "TSV", file_subtype := "TSV", file_pfx := "sampleT".data,
    technique := "smartseq", sample_id := "s1", validated_dir := none, is_bundled := true }

/-- The lower-cased PacBio technique literal; only this exact spelling of the
manifest `Technique` value enters the long-read branch of
`FastqBundle.validate_contents`. -/
def pacbioTech : String := pyLower ("PacBio long read sequencing")

/-- A long-read FASTQ component file (subtype `PACBIO_FASTQ` is what
`determine_fastq_component_filetype` assigns when no read/index marker
matches and the technique is a long-read one). -/
def pacbioFile : FileEnt :=
  { file_type := "FASTQ", file_subtype := "PACBIO_FASTQ", file_pfx := "sampleP".data,
    technique := pacbioTech, sample_id := "s1", validated_dir := none, is_bundled := true }

/-- A second file in the same long-read candidate group carrying a distinct
subtype. -/
def pacbioFileR1 : FileEnt :=
  { file_type := "FASTQ", file_subtype := "FASTQ_READ1", file_pfx := "sampleP".data,
    technique := pacbioTech, sample_id := "s1", validated_dir := none, is_bundled := true }

/-- A FASTQ component file with a standard short-read technique. -/
def fqFile (st : String) : FileEnt :=
  { file_type := "FASTQ", file_subtype := st, file_pfx := "sampleA".data,
    technique := "10x genomics sequencing", sample_id := "s1", validated_dir := none,
    is_bundled := true }

/-- An MEX component file. -/
def mexFile (st : String) : FileEnt :=
  { file_type := "MEX", file_subtype := st, file_pfx := "sampleM".data,
    technique := "10x genomics sequencing", sample_id := "s1", validated_dir := none,
    is_bundled := true }

/-! ## Filename classification (`file_entity.py`)

Filenames are embedded as `List Char`.  Every classification pattern in
`file_entity.py` is either end-anchored (`...$`), possibly with negative
lookbehinds at the match start, or a plain interior pattern with optional
underscores (`_?COLmeta_DIMRED_?` and friends).  A pattern is embedded as a
function from the text before a position (for lookbehinds) and the text
from that position to the end, to `some` match length or `none`;
`re.search`/`re.split` semantics are the leftmost matching position. -/
def RePat : Type := List Char → List Char → Option Nat

/-- Leftmost-match search: `searchPat p pre t` scans the positions of `t`
left to right, with `pre` the text already to the left, and returns the
text before the first matching position together with the match length. -/
def searchPat (p : RePat) : List Char → List Char → Option (List Char × Nat)
  | pre, [] =>
    match p pre [] with
    | some n => some (pre, n)
    | none => none
  | pre, c :: cs =>
    match p pre (c :: cs) with
    | some n => some (pre, n)
    | none => searchPat p (pre ++ [c]) cs

/-- Python `re.search(p, s)`: leftmost match of `p` in `s`. -/
def reSearch (p : RePat) (s : List Char) : Option (List Char × Nat) :=
  searchPat p [] s

/-- An end-anchored alternation such as `\.bam$` or `(\.bb|\.bigBed|\.bigbed)(\.gz)?$`:
the pattern matches at a position exactly when the remaining text is one of
the fully expanded alternatives. -/
def suffixOneOf (alts : List (List Char)) : RePat :=
  fun _pre t => if t ∈ alts then some t.length else none

/-- An end-anchored alternation guarded by negative lookbehinds at the match
start, such as `(?<!_nuc_hash)\.csv(\.gz)?$`. -/
def suffixOneOfNotBehind (alts : List (List Char)) (bad : List (List Char)) : RePat :=
  fun pre t => if t ∈ alts ∧ ∀ b ∈ bad, ¬ b <:+ pre then some t.length else none

/-- `_[Ll]([0-9]{3}|[0-9]{1}-[0-9]{1})`, the tail of the sequencing-lane
group of the cell-hash patterns. -/
def laneAfterDigits (t : List Char) : Bool :=
  match t with
  | '_' :: l :: a :: b :: c :: _ =>
    (l = 'L' ∨ l = 'l') ∧ ((a.isDigit ∧ b.isDigit ∧ c.isDigit) ∨ (a.isDigit ∧ b = '-' ∧ c.isDigit))
  | _ => false

/-- Length consumed by `_[Ss][0-9]{1,2}_[Ll](?:[0-9]{3}|[0-9]{1}-[0-9]{1})`
when it matches at the head of `t` (9 with two sample digits, 8 with one),
`none` otherwise. -/
def laneLen (t : List Char) : Option Nat :=
  match t with
  | '_' :: s :: d1 :: rest =>
    if (s = 'S' ∨ s = 's') ∧ d1.isDigit then
      match rest with
      | d2 :: rest2 =>
        if d2.isDigit ∧ laneAfterDigits rest2 then some 9
        else if laneAfterDigits (d2 :: rest2) then some 8
        else none
      | [] => none
    else none
  | _ => none

/-- The negative lookahead `(?!_[Ss][0-9]{1,2}_[Ll](?:[0-9]{3}|...))` that
opens the five read/index patterns: true when the lane group matches at the
head of `t`. -/
def laneStartB (t : List Char) : Bool :=
  (laneLen t).isSome

/-- The four expansions of the FASTQ extension pattern `\.f(ast)?q(\.gz)?$`. -/
def FASTQ_EXTS : List (List Char) :=
  [".fastq.gz".data, ".fastq".data, ".fq.gz".data, ".fq".data]

/-- `FASTQ_PTRN` (file_entity.py line 706): `\.f(ast)?q(\.gz)?$`. -/
def FASTQ_PTRN : RePat := suffixOneOf FASTQ_EXTS

/-- The five FASTQ read/index roles. -/
inductive FRole where
  | R1 | R2 | R3 | I1 | I2
deriving DecidableEq, Repr

/-- The marker alternation of each role pattern: `(-R1|_R1|\.R1|\.read1)`
for the reads, `(-|_|\.)I1` (equivalently `-I1|_I1|\.I1`) for the indexes. -/
def roleMarkers : FRole → List (List Char)
  | .R1 => ["-R1".data, "_R1".data, ".R1".data, ".read1".data]
  | .R2 => ["-R2".data, "_R2".data, ".R2".data, ".read2".data]
  | .R3 => ["-R3".data, "_R3".data, ".R3".data, ".read3".data]
  | .I1 => ["-I1".data, "_I1".data, ".I1".data]
  | .I2 => ["-I2".data, "_I2".data, ".I2".data]

/-- `_[0-9]{3}` followed by the FASTQ extension, consuming the whole text. -/
def digitOpt (t : List Char) : Bool :=
  match t with
  | c0 :: c1 :: c2 :: c3 :: rest =>
    c0 = '_' && c1.isDigit && c2.isDigit && c3.isDigit && decide (rest ∈ FASTQ_EXTS)
  | _ => false

/-- The optional infix and extension that close every read/index pattern:
`(?:_[0-9]{3}|\.raw|\.trimmed|\.trimed)?\.f(?:ast)?q(?:\.gz)?$`, as a test
on the whole remaining text. -/
def optThenExt (t : List Char) : Bool :=
  decide (t ∈ FASTQ_EXTS) || digitOpt t ||
  (".raw".data.isPrefixOf t && decide (t.drop 4 ∈ FASTQ_EXTS)) ||
  (".trimmed".data.isPrefixOf t && decide (t.drop 8 ∈ FASTQ_EXTS)) ||
  (".trimed".data.isPrefixOf t && decide (t.drop 7 ∈ FASTQ_EXTS))

/-- `R1_PTRN` .. `I2_PTRN` (lines 710-715): the opening negative lookahead,
one marker alternative, the optional infix, and the extension, anchored at
the end. -/
def rolePat (r : FRole) : RePat :=
  fun _pre t =>
    if (! laneStartB t) && (roleMarkers r).any (fun m => m.isPrefixOf t && optThenExt (t.drop m.length))
    then some t.length else none

/-- The optional infix and extension closing the cell-hash FASTQ patterns:
`(?:_[0-9]{3})?\.f(?:ast)?q(?:\.gz)?$`. -/
def cellhashOptExt (t : List Char) : Bool :=
  decide (t ∈ FASTQ_EXTS) || digitOpt t

/-- The `_R1` .. `_I2` literal of the cell-hash FASTQ patterns. -/
def cellhashMarker : FRole → List Char
  | .R1 => "_R1".data
  | .R2 => "_R2".data
  | .R3 => "_R3".data
  | .I1 => "_I1".data
  | .I2 => "_I2".data

/-- `CELLHASH_FASTQ_R1_PTRN` .. `_I2_PTRN` (lines 735-739): the captured
lane group, the role literal, the optional `_[0-9]{3}`, and the extension,
anchored at the end. -/
def cellhashPat (r : FRole) : RePat :=
  fun _pre t =>
    match laneLen t with
    | some n =>
      if (cellhashMarker r).isPrefixOf (t.drop n) &&
         cellhashOptExt (t.drop (n + (cellhashMarker r).length))
      then some t.length else none
    | none => none

/-- The interior patterns `_?COLmeta_DIMRED_?`, `_?ROWmeta_DIMRED_?` and
`_?DIMREDmeta_?` (lines 753-755): at a position, the greedy leading `_?` is
taken when it is followed by the core, and the greedy trailing `_?` extends
the match by one when an underscore follows. -/
def infixOptUnd (core : List Char) : RePat :=
  fun _pre t =>
    if ('_' :: core).isPrefixOf t then
      some ((1 + core.length) + (if (t.drop (1 + core.length)).head? = some '_' then 1 else 0))
    else if core.isPrefixOf t then
      some (core.length + (if (t.drop core.length).head? = some '_' then 1 else 0))
    else none

/-- `BAM_PTRN`: `\.bam$`. -/
def BAM_PTRN : RePat := suffixOneOf [".bam".data]
/-- `BAI_PTRN`: `\.bam\.bai$`. -/
def BAI_PTRN : RePat := suffixOneOf [".bam.bai".data]
/-- `CRAM_PTRN`: `\.cram$`. -/
def CRAM_PTRN : RePat := suffixOneOf [".cram".data]
/-- `CRAI_PTRN`: `\.cram\.crai$`. -/
def CRAI_PTRN : RePat := suffixOneOf [".cram.crai".data]
/-- `TSV_PTRN`: `(?<!barcodes)(?<!features)(?<!genes)\.tsv(\.gz)?$`. -/
def TSV_PTRN : RePat :=
  suffixOneOfNotBehind [".tsv".data, ".tsv.gz".data]
    ["barcodes".data, "features".data, "genes".data]
/-- `TSV_IDX_PTRN`: `\.tsv(\.gz)?\.(tbi|idx)$`. -/
def TSV_IDX_PTRN : RePat :=
  suffixOneOf [".tsv.tbi".data, ".tsv.idx".data, ".tsv.gz.tbi".data, ".tsv.gz.idx".data]
/-- `MTX_PTRN`: `\.?(matrix|_umi_counts)\.mtx(\.gz)?$`. -/
def MTX_PTRN : RePat :=
  suffixOneOf [".matrix.mtx".data, "matrix.mtx".data, "._umi_counts.mtx".data, "_umi_counts.mtx".data,
    ".matrix.mtx.gz".data, "matrix.mtx.gz".data, "._umi_counts.mtx.gz".data, "_umi_counts.mtx.gz".data]
/-- `BARCODES_TSV_PTRN`: `\.?(barcodes|_cell_annotations)\.tsv(\.gz)?$`. -/
def BARCODES_TSV_PTRN : RePat :=
  suffixOneOf [".barcodes.tsv".data, "barcodes.tsv".data,
    "._cell_annotations.tsv".data, "_cell_annotations.tsv".data,
    ".barcodes.tsv.gz".data, "barcodes.tsv.gz".data,
    "._cell_annotations.tsv.gz".data, "_cell_annotations.tsv.gz".data]
/-- `GENES_TSV_PTRN`: `\.?(features|genes|_gene_annotations)\.tsv(\.gz)?$`. -/
def GENES_TSV_PTRN : RePat :=
  suffixOneOf [".features.tsv".data, "features.tsv".data, ".genes.tsv".data, "genes.tsv".data,
    "._gene_annotations.tsv".data, "_gene_annotations.tsv".data,
    ".features.tsv.gz".data, "features.tsv.gz".data, ".genes.tsv.gz".data, "genes.tsv.gz".data,
    "._gene_annotations.tsv.gz".data, "_gene_annotations.tsv.gz".data]
/-- `PEAK_BED_PTRN`: `peaks\.bed(\.gz)?$`. -/
def PEAK_BED_PTRN : RePat := suffixOneOf ["peaks.bed".data, "peaks.bed.gz".data]
/-- `CSV_PTRN` (line 731): `(?<!_nuc_hash)\.csv(\.gz)?$`. -/
def CSV_PTRN : RePat :=
  suffixOneOfNotBehind [".csv".data, ".csv.gz".data] ["_nuc_hash".data]
/-- `CELLHASH_CSV_PTRN` (line 734): `_nuc_hash\.csv(\.gz)?$`. -/
def CELLHASH_CSV_PTRN : RePat :=
  suffixOneOf ["_nuc_hash.csv".data, "_nuc_hash.csv.gz".data]
/-- `ISOFORMS_FPKM_PTRN`: `barcodes\.fpkm_tracking$`. -/
def ISOFORMS_FPKM_PTRN : RePat := suffixOneOf ["barcodes.fpkm_tracking".data]
/-- `GENES_FPKM_PTRN`: `genes\.fpkm_tracking$`. -/
def GENES_FPKM_PTRN : RePat := suffixOneOf ["genes.fpkm_tracking".data]
/-- `BED_PTRN`: `(?<!peaks)(?<!plink)\.bed(\.gz)?$`. -/
def BED_PTRN : RePat :=
  suffixOneOfNotBehind [".bed".data, ".bed.gz".data] ["peaks".data, "plink".data]
/-- `QBED_PTRN`: `(?<!peaks)(?<!plink)\.qbed(\.gz)?$`. -/
def QBED_PTRN : RePat :=
  suffixOneOfNotBehind [".qbed".data, ".qbed.gz".data] ["peaks".data, "plink".data]
/-- `BIGBED_PTRN`: `(\.bb|\.bigBed|\.bigbed)(\.gz)?$`. -/
def BIGBED_PTRN : RePat :=
  suffixOneOf [".bb".data, ".bigBed".data, ".bigbed".data,
    ".bb.gz".data, ".bigBed.gz".data, ".bigbed.gz".data]
/-- `BIGWIG_PTRN`: `(\.bw|\.bigWig|\.bigwig)(\.gz)?$`. -/
def BIGWIG_PTRN : RePat :=
  suffixOneOf [".bw".data, ".bigWig".data, ".bigwig".data,
    ".bw.gz".data, ".bigWig.gz".data, ".bigwig.gz".data]
/-- `COL_COUNTS_PTRN`: `COLmeta\.tab$`. -/
def COL_COUNTS_PTRN : RePat := suffixOneOf ["COLmeta.tab".data]
/-- `ROW_COUNTS_PTRN`: `ROWmeta\.tab$`. -/
def ROW_COUNTS_PTRN : RePat := suffixOneOf ["ROWmeta.tab".data]
/-- `MTX_COUNTS_PTRN`: `DataMTX\.tab$`. -/
def MTX_COUNTS_PTRN : RePat := suffixOneOf ["DataMTX.tab".data]
/-- `EXP_JSON_PTRN`: `EXPmeta\.json$`. -/
def EXP_JSON_PTRN : RePat := suffixOneOf ["EXPmeta.json".data]
/-- `COL_ANALYSIS_PTRN`: `_?COLmeta_DIMRED_?`. -/
def COL_ANALYSIS_PTRN : RePat := infixOptUnd ("COLmeta_DIMRED".data)
/-- `ROW_ANALYSIS_PTRN`: `_?ROWmeta_DIMRED_?`. -/
def ROW_ANALYSIS_PTRN : RePat := infixOptUnd ("ROWmeta_DIMRED".data)
/-- `DIMRED_PTRN`: `_?DIMREDmeta_?`. -/
def DIMRED_PTRN : RePat := infixOptUnd ("DIMREDmeta".data)
/-- `H5AD_PTRN`: `\.h5ad$`. -/
def H5AD_PTRN : RePat := suffixOneOf [".h5ad".data]
/-- `JSON_PTRN`: `(?<!EXPmeta)\.json$`. -/
def JSON_PTRN : RePat := suffixOneOfNotBehind [".json".data] ["EXPmeta".data]
/-- `H5_PTRN`: `\.h5$`. -/
def H5_PTRN : RePat := suffixOneOf [".h5".data]
/-- `SNAP_PTRN`: `\.snap$`. -/
def SNAP_PTRN : RePat := suffixOneOf [".snap".data]
/-- `SNAP_QC_PTRN`: `\.snap\.qc$`. -/
def SNAP_QC_PTRN : RePat := suffixOneOf [".snap.qc".data]
/-- `PLINK_BED_PTRN`: `\.plink\.bed$`. -/
def PLINK_BED_PTRN : RePat := suffixOneOf [".plink.bed".data]
/-- `BIM_PTRN`: `\.bim$`. -/
def BIM_PTRN : RePat := suffixOneOf [".bim".data]
/-- `FAM_PTRN`: `\.fam$`. -/
def FAM_PTRN : RePat := suffixOneOf [".fam".data]
/-- `LOOM_PTRN`: `\.loom$`. -/
def LOOM_PTRN : RePat := suffixOneOf [".loom".data]
/-- `R_PTRN`: `(\.rds|\.rda|\.Rdata|\.Robj)$`. -/
def R_PTRN : RePat :=
  suffixOneOf [".rds".data, ".rda".data, ".Rdata".data, ".Robj".data]
/-- `TXT_PTRN`: `\.txt$`. -/
def TXT_PTRN : RePat := suffixOneOf [".txt".data]
/-- `VCF_PTRN`: `\.vcf\.gz$`. -/
def VCF_PTRN : RePat := suffixOneOf [".vcf.gz".data]
/-- `VCF_TBI_PTRN`: `\.vcf\.gz\.tbi$`. -/
def VCF_TBI_PTRN : RePat := suffixOneOf [".vcf.gz.tbi".data]

/-- Identifiers for the patterns of `FILE_TYPE_LOOKUPS`, plus the
role-specific and cell-hash FASTQ patterns that
`determine_fastq_component_filetype` substitutes. -/
inductive PatternId where
  | BAM | BAI | BED | QBED | BIGBED | BIGWIG | CRAM | CRAI | CSV | CELLHASH_CSV
  | FASTQ | GENES_FPKM | ISOFORMS_FPKM | H5 | H5AD | JSON | LOOM
  | MEX_BARCODES | MEX_GENES | MEX_MTX | PEAK_BED | SNAP | SNAP_QC
  | COL_ANALYSIS | ROW_ANALYSIS | DIMRED
  | COL_COUNTS | ROW_COUNTS | MTX_COUNTS | EXP_JSON
  | TSV | TSV_IDX | PLINK_BED | BIM | FAM | R | TXT | VCF | VCF_TBI
  | ROLE (r : FRole)
  | CELLHASH_FASTQ (r : FRole)
deriving DecidableEq, Repr

/-- The pattern each identifier stands for. -/
def patOf : PatternId → RePat
  | .BAM => BAM_PTRN
  | .BAI => BAI_PTRN
  | .BED => BED_PTRN
  | .QBED => QBED_PTRN
  | .BIGBED => BIGBED_PTRN
  | .BIGWIG => BIGWIG_PTRN
  | .CRAM => CRAM_PTRN
  | .CRAI => CRAI_PTRN
  | .CSV => CSV_PTRN
  | .CELLHASH_CSV => CELLHASH_CSV_PTRN
  | .FASTQ => FASTQ_PTRN
  | .GENES_FPKM => GENES_FPKM_PTRN
  | .ISOFORMS_FPKM => ISOFORMS_FPKM_PTRN
  | .H5 => H5_PTRN
  | .H5AD => H5AD_PTRN
  | .JSON => JSON_PTRN
  | .LOOM => LOOM_PTRN
  | .MEX_BARCODES => BARCODES_TSV_PTRN
  | .MEX_GENES => GENES_TSV_PTRN
  | .MEX_MTX => MTX_PTRN
  | .PEAK_BED => PEAK_BED_PTRN
  | .SNAP => SNAP_PTRN
  | .SNAP_QC => SNAP_QC_PTRN
  | .COL_ANALYSIS => COL_ANALYSIS_PTRN
  | .ROW_ANALYSIS => ROW_ANALYSIS_PTRN
  | .DIMRED => DIMRED_PTRN
  | .COL_COUNTS => COL_COUNTS_PTRN
  | .ROW_COUNTS => ROW_COUNTS_PTRN
  | .MTX_COUNTS => MTX_COUNTS_PTRN
  | .EXP_JSON => EXP_JSON_PTRN
  | .TSV => TSV_PTRN
  | .TSV_IDX => TSV_IDX_PTRN
  | .PLINK_BED => PLINK_BED_PTRN
  | .BIM => BIM_PTRN
  | .FAM => FAM_PTRN
  | .R => R_PTRN
  | .TXT => TXT_PTRN
  | .VCF => VCF_PTRN
  | .VCF_TBI => VCF_TBI_PTRN
  | .ROLE r => rolePat r
  | .CELLHASH_FASTQ r => cellhashPat r

/-- `FILE_TYPE_LOOKUPS` (lines 780-841), in source order. -/
def FILE_TYPE_LOOKUPS : List (PatternId × String) :=
  [(.BAM, "BAM"), (.BAI, "BAM_IDX"),
   (.BED, "BED"), (.QBED, "QBED"),
   (.BIGBED, "BIGBED"),
   (.BIGWIG, "BIGWIG"),
   (.CRAM, "CRAM"), (.CRAI, "CRAM_IDX"),
   (.CSV, "CSV"),
   (.CELLHASH_CSV, "CELLHASH_CSV"),
   (.FASTQ, "FASTQ"),
   (.GENES_FPKM, "GENES_FPKM"), (.ISOFORMS_FPKM, "ISOFORMS_FPKM"),
   (.H5, "H5"),
   (.H5AD, "H5AD"), (.JSON, "H5AD_JSON"),
   (.LOOM, "LOOM"),
   (.MEX_BARCODES, "MEX_BARCODES"), (.MEX_GENES, "MEX_GENES"),
   (.MEX_MTX, "MEX_MTX"), (.PEAK_BED, "MEX_PEAK"),
   (.SNAP, "SNAP"), (.SNAP_QC, "SNAP_QC"),
   (.COL_ANALYSIS, "TAB_ANALYSIS_COL"), (.ROW_ANALYSIS, "TAB_ANALYSIS_ROW"),
   (.DIMRED, "TAB_ANALYSIS_DIMRED"),
   (.COL_COUNTS, "TAB_COUNTS_COL"), (.ROW_COUNTS, "TAB_COUNTS_ROW"),
   (.MTX_COUNTS, "TAB_COUNTS_MTX"), (.EXP_JSON, "TAB_COUNTS_JSON"),
   (.TSV, "TSV"), (.TSV_IDX, "TSV_IDX"),
   (.PLINK_BED, "PLINK_BED"), (.BIM, "BIM"), (.FAM, "FAM"),
   (.R, "R"), (.TXT, "TXT"),
   (.VCF, "VCF"), (.VCF_TBI, "VCF_TBI")]

/-- The first-match-wins loop of `file_entity_factory` (lines 991-1001). -/
def findFirstMatch : List (PatternId × String) → List Char → Option (PatternId × String)
  | [], _ => none
  | (p, tag) :: rest, name =>
    if (reSearch (patOf p) name).isSome then some (p, tag) else findFirstMatch rest name

/-- The technique value that selects the cell-hash FASTQ pattern set
(line 931). -/
def CELLHASH_TECH : String := "10x genomics multiome-cell hashing;cell hashing"

/-- `determine_fastq_component_filetype` (lines 916-969), returning the
substituted pattern and subtype.  The final `endswith` fallbacks for the
Ecker one-time exceptions are embedded verbatim even though each of those
suffixes already matches the corresponding role pattern. -/
def determine_fastq_component_filetype (technique : String) (filepath : List Char) :
    Option (PatternId × String) :=
  if pyLower technique = CELLHASH_TECH then
    if (reSearch (cellhashPat .R1) filepath).isSome then some (.CELLHASH_FASTQ .R1, "CELLHASH_FASTQ_R1")
    else if (reSearch (cellhashPat .R2) filepath).isSome then some (.CELLHASH_FASTQ .R2, "CELLHASH_FASTQ_R2")
    else if (reSearch (cellhashPat .R3) filepath).isSome then some (.CELLHASH_FASTQ .R3, "CELLHASH_FASTQ_R3")
    else if (reSearch (cellhashPat .I1) filepath).isSome then some (.CELLHASH_FASTQ .I1, "CELLHASH_FASTQ_I1")
    else if (reSearch (cellhashPat .I2) filepath).isSome then some (.CELLHASH_FASTQ .I2, "CELLHASH_FASTQ_I2")
    else none
  else if (reSearch (rolePat .R1) filepath).isSome then some (.ROLE .R1, "FASTQ_READ1")
  else if (reSearch (rolePat .R2) filepath).isSome then some (.ROLE .R2, "FASTQ_READ2")
  else if (reSearch (rolePat .R3) filepath).isSome then some (.ROLE .R3, "FASTQ_READ3")
  else if (reSearch (rolePat .I1) filepath).isSome then some (.ROLE .I1, "FASTQ_INDEX1")
  else if (reSearch (rolePat .I2) filepath).isSome then some (.ROLE .I2, "FASTQ_INDEX2")
  else if pyLower technique = "pacbio long read sequencing" ∨
          pyLower technique = pyLower ("Oxford Nanopore long read sequencing") then
    some (.FASTQ, "PACBIO_FASTQ")
  else if "-R1.fq.gz".data <:+ filepath then some (.ROLE .R1, "FASTQ_READ1")
  else if "-R2.fq.gz".data <:+ filepath then some (.ROLE .R2, "FASTQ_READ2")
  else if "-R3.fq.gz".data <:+ filepath then some (.ROLE .R3, "FASTQ_READ3")
  else if "-I1.fq.gz".data <:+ filepath then some (.ROLE .I1, "FASTQ_INDEX1")
  else if "-I2.fq.gz".data <:+ filepath then some (.ROLE .I2, "FASTQ_INDEX2")
  else none

/-- `CLASS_LOOKUP` (lines 843-913), reduced to the two per-class attributes
the validation pass reads: the class `file_type` and its `is_bundled` flag
(subclass `__init__`s in file_entity.py). -/
def CLASS_LOOKUP (found_type : String) : Option (String × Bool) :=
  match found_type with
  | "BAM" => some ("BAM", true)
  | "BAM_IDX" => some ("BAM", true)
  | "BED" => some ("BED", false)
  | "QBED" => some ("QBED", false)
  | "BIGBED" => some ("BIGBED", false)
  | "BIGWIG" => some ("BIGWIG", false)
  | "CRAM" => some ("CRAM", true)
  | "CRAM_IDX" => some ("CRAM", true)
  | "CSV" => some ("CSV", true)
  | "CELLHASH_CSV" => some ("CELLHASH", true)
  | "CELLHASH_FASTQ_R1" => some ("CELLHASH", true)
  | "CELLHASH_FASTQ_R2" => some ("CELLHASH", true)
  | "CELLHASH_FASTQ_R3" => some ("CELLHASH", true)
  | "CELLHASH_FASTQ_I1" => some ("CELLHASH", true)
  | "CELLHASH_FASTQ_I2" => some ("CELLHASH", true)
  | "FASTQ_READ1" => some ("FASTQ", true)
  | "FASTQ_READ2" => some ("FASTQ", true)
  | "FASTQ_READ3" => some ("FASTQ", true)
  | "FASTQ_INDEX1" => some ("FASTQ", true)
  | "FASTQ_INDEX2" => some ("FASTQ", true)
  | "PACBIO_FASTQ" => some ("FASTQ", true)
  | "GENES_FPKM" => some ("FPKM", true)
  | "ISOFORMS_FPKM" => some ("FPKM", true)
  | "H5" => some ("H5", false)
  | "H5AD" => some ("H5AD", true)
  | "H5AD_JSON" => some ("H5AD", true)
  | "LOOM" => some ("LOOM", false)
  | "MEX_BARCODES" => some ("MEX", true)
  | "MEX_GENES" => some ("MEX", true)
  | "MEX_MTX" => some ("MEX", true)
  | "MEX_PEAK" => some ("MEX", true)
  | "SNAP" => some ("SNAP", true)
  | "SNAP_QC" => some ("SNAP", true)
  | "TAB_ANALYSIS_COL" => some ("TAB_ANALYSIS", true)
  | "TAB_ANALYSIS_ROW" => some ("TAB_ANALYSIS", true)
  | "TAB_ANALYSIS_DIMRED" => some ("TAB_ANALYSIS", true)
  | "TAB_COUNTS_COL" => some ("TAB_COUNTS", true)
  | "TAB_COUNTS_ROW" => some ("TAB_COUNTS", true)
  | "TAB_COUNTS_MTX" => some ("TAB_COUNTS", true)
  | "TAB_COUNTS_JSON" => some ("TAB_COUNTS", true)
  | "TSV" => some ("TSV", true)
  | "TSV_IDX" => some ("TSV", true)
  | "PLINK_BED" => some ("PLINK_BED", false)
  | "BIM" => some ("BIM", false)
  | "FAM" => some ("FAM", false)
  | "TXT" => some ("TXT", false)
  | "R" => some ("R", false)
  | "VCF" => some ("VCF", true)
  | "VCF_TBI" => some ("VCF", true)
  | _ => none

/-- Index of the last occurrence of `c` in the list, if any. -/
def lastIdxOf (c : Char) : List Char → Option Nat
  | [] => none
  | a :: as =>
    match lastIdxOf c as with
    | some i => some (i + 1)
    | none => if a = c then some 0 else none

/-- `pathlib.Path(t).stem` for a bare file name: the name with its final
suffix removed, where a suffix needs an interior dot that is neither the
first nor the last character. -/
def pathStem (t : List Char) : List Char :=
  match lastIdxOf '.' t with
  | some i => if 0 < i ∧ i + 1 < t.length then t.take i else t
  | none => t

/-- `re.split(pattern, filename)[0]`: the text before the leftmost match,
or the whole string when there is no match. -/
def splitPre (pid : PatternId) (name : List Char) : List Char :=
  match reSearch (patOf pid) name with
  | some (pre, _) => pre
  | none => name

/-- The part of `re.split(pattern, filename)` after the matched text
(element 2 for the one-group FASTQ patterns, element 1 for the group-less
tabular patterns), or `[]` when there is no match. -/
def splitPost (pid : PatternId) (name : List Char) : List Char :=
  match reSearch (patOf pid) name with
  | some (pre, n) => name.drop (pre.length + n)
  | none => []

/-- `re.split(FASTQ_PTRN, x)[0]` (used to peel remaining FASTQ extensions
off the second half, lines 1048 etc.). -/
def fastqSplit0 (t : List Char) : List Char :=
  match reSearch FASTQ_PTRN t with
  | some (pre, _) => pre
  | none => t

/-- `filename.rsplit('-', 1)[0]`. -/
def rsplitHyphen0 (t : List Char) : List Char :=
  match lastIdxOf '-' t with
  | some i => t.take i
  | none => t

/-- The `unsightly_chars` loop over the second half
(file_entity.py lines 1081-1086).  The source tests
`second_prefix_half.startswith(i)` but then slices `[:-1]`, removing the
*last* character; this is embedded verbatim. -/
def unsightlyChopSecond (t : List Char) : List Char :=
  match t.head? with
  | some c => if c = '.' ∨ c = '_' ∨ c = '-' then t.dropLast else t
  | none => t

/-- The final `unsightly_chars` loop over the whole computed file prefix
(lines 1091-1095): drop one trailing `.`/`_`/`-`. -/
def unsightlyChopEnd (t : List Char) : List Char :=
  match t.getLast? with
  | some c => if c = '.' ∨ c = '_' ∨ c = '-' then t.dropLast else t
  | none => t

/-- The role/tabular second-half chain of `file_entity_factory`
(lines 1040-1079): re-search the role patterns in priority order, then the
tabular patterns, and compute the two prefix halves; for the FASTQ roles the
text right of the match additionally has its extension stripped and any
remaining FASTQ extension split off; the fallback splits on the last
hyphen. -/
def fastqSecondHalfChain (filename : List Char) : List Char × List Char :=
  if (reSearch (rolePat .R1) filename).isSome then
    (splitPre (.ROLE .R1) filename, fastqSplit0 (pathStem (splitPost (.ROLE .R1) filename)))
  else if (reSearch (rolePat .R2) filename).isSome then
    (splitPre (.ROLE .R2) filename, fastqSplit0 (pathStem (splitPost (.ROLE .R2) filename)))
  else if (reSearch (rolePat .R3) filename).isSome then
    (splitPre (.ROLE .R3) filename, fastqSplit0 (pathStem (splitPost (.ROLE .R3) filename)))
  else if (reSearch (rolePat .I1) filename).isSome then
    (splitPre (.ROLE .I1) filename, fastqSplit0 (pathStem (splitPost (.ROLE .I1) filename)))
  else if (reSearch (rolePat .I2) filename).isSome then
    (splitPre (.ROLE .I2) filename, fastqSplit0 (pathStem (splitPost (.ROLE .I2) filename)))
  else if (reSearch COL_ANALYSIS_PTRN filename).isSome then
    (splitPre .COL_ANALYSIS filename, pathStem (splitPost .COL_ANALYSIS filename))
  else if (reSearch ROW_ANALYSIS_PTRN filename).isSome then
    (splitPre .ROW_ANALYSIS filename, pathStem (splitPost .ROW_ANALYSIS filename))
  else if (reSearch DIMRED_PTRN filename).isSome then
    (splitPre .DIMRED filename, pathStem (splitPost .DIMRED filename))
  else (rsplitHyphen0 filename, [])

/-- The pattern identifiers of the cell-hash FASTQ set (line 1018). -/
def cellhashPatIds : List PatternId :=
  [.CELLHASH_FASTQ .R1, .CELLHASH_FASTQ .R2, .CELLHASH_FASTQ .R3,
   .CELLHASH_FASTQ .I1, .CELLHASH_FASTQ .I2]

/-- The pattern identifiers that trigger the two-half prefix reconstruction
(line 1040). -/
def splitTokenPatIds : List PatternId :=
  [.ROLE .R1, .ROLE .R2, .ROLE .R3, .ROLE .I1, .ROLE .I2,
   .COL_ANALYSIS, .ROW_ANALYSIS, .DIMRED]

/-- `file_entity_factory` (lines 972-1097) for a bare file name (manifest
`File_name` values contain no directory part, so `Path(filepath).name` is
the input itself).  `ValueError`s are embedded as `Except.error`; the
resulting entity carries the class `file_type`, the subtype, the computed
file prefix and the technique (`sample_id` is assigned later by
`Manifest.validate_manifest_file`). -/
def file_entity_factory (technique : String) (name : List Char) : Except String FileEnt :=
  match findFirstMatch FILE_TYPE_LOOKUPS name with
  | none => Except.error ("ValueError: cannot determine filetype")
  | some (pid0, tag0) =>
    let dispatch : Except String (PatternId × String) :=
      if tag0 = "FASTQ" then
        match determine_fastq_component_filetype technique name with
        | some pt => Except.ok pt
        | none => Except.error ("ValueError: cannot determine FASTQ sub-filetype")
      else Except.ok (pid0, tag0)
    match dispatch with
    | Except.error e => Except.error e
    | Except.ok (pid, found_type) =>
      match CLASS_LOOKUP found_type with
      | none => Except.error ("KeyError: class lookup")
      | some (ftype, bundled) =>
        let pfx0 := splitPre pid name
        if pfx0.length = 0 then Except.error ("ValueError: no file prefix")
        else
          let pfx1 :=
            if pid ∈ cellhashPatIds then pfx0
            else if pid ∈ splitTokenPatIds then
              let halves := fastqSecondHalfChain name
              halves.1 ++ ('-' :: unsightlyChopSecond halves.2)
            else pfx0
          Except.ok { file_type := ftype, file_subtype := found_type,
                      file_pfx := unsightlyChopEnd pfx1,
                      technique := technique, sample_id := "", validated_dir := none,
                      is_bundled := bundled }

/-- The five roles in the priority order of the classification chain. -/
def allRoles : List FRole := [.R1, .R2, .R3, .I1, .I2]

/-- The subtype string `determine_fastq_component_filetype` assigns per role
on the standard path. -/
def roleSubtypeName : FRole → String
  | .R1 => "FASTQ_READ1"
  | .R2 => "FASTQ_READ2"
  | .R3 => "FASTQ_READ3"
  | .I1 => "FASTQ_INDEX1"
  | .I2 => "FASTQ_INDEX2"

/-- The subtype string assigned per role on the cell-hash path. -/
def cellhashSubtypeName : FRole → String
  | .R1 => "CELLHASH_FASTQ_R1"
  | .R2 => "CELLHASH_FASTQ_R2"
  | .R3 => "CELLHASH_FASTQ_R3"
  | .I1 => "CELLHASH_FASTQ_I1"
  | .I2 => "CELLHASH_FASTQ_I2"

/-! ## FileEntity state handling (`file_entity.py` lines 72-433)

`FileEntity.__init__` assigns a logger only when `is_validation` is false,
and then assigns the *unbound method* `self.setup_logger` (line 95, no
call parentheses) and immediately fails on `self.logger.info`; in
validation mode (`is_validation=True`, the mode used by
`Manifest.validate_manifest_file`) no `logger` attribute exists at all.
Consequently `FileEntity.record_error` (lines 364-375), which runs
`self.error = error` followed by `self.logger.error(self.error)`, always
sets `error` and then raises `AttributeError`.  The raise is embedded as a
`Bool`/`Option String` exception component. -/

/-- `FileEntity.STATES` (file_entity.py lines 79-80). -/
def FileEntity.STATES : List String :=
  ["NOT SUBMITTED", "TRANSFERRING", "SUBMITTED", "INVALID", "VALID", "VALIDATED"]

/-- The mutable state of a validation-mode `FileEntity` that
`set_state`/`record_error` touch. -/
structure FEState where
  state : String
  error : Option String
deriving DecidableEq, Repr

/-- A freshly constructed file entity: `state = "NOT SUBMITTED"`, no error
(lines 93, 98). -/
def FileEntity.init : FEState :=
  { state := "NOT SUBMITTED", error := none }

/-- `FileEntity.record_error` (lines 364-375): set the `error` attribute,
then fail with `AttributeError` on the unusable `self.logger` (the second
component reports the escaped exception). -/
def FileEntity.record_error (e : FEState) (msg : String) : FEState × Bool :=
  ({ e with error := some msg }, true)

/-- `FileEntity.set_state` (lines 405-418): for a known state the
assignment runs and nothing is raised; for an unknown state `record_error`
runs first and its `AttributeError` escapes before the assignment
`self.state = new_state` is reached. -/
def FileEntity.set_state (e : FEState) (new_state : String) : FEState × Option String :=
  if new_state ∈ FileEntity.STATES then
    ({ e with state := new_state }, none)
  else
    let r := FileEntity.record_error e
      ("Tried to change state from " ++ e.state ++ " to non-existing state " ++ new_state)
    (r.1, if r.2 then some ("AttributeError") else none)

/-! ## The per-row classification loop (`manifest.py` lines 443-543) -/

/-- A manifest row, reduced to the fields the classification loop reads:
`File_name`, `Technique` (passed to `file_entity_factory` through `**row`),
`Sample_ID`, and the full list of cell values (scanned for line breaks). -/
structure Row where
  file_name : List Char
  technique : String
  sample_id : String
  values : List String
deriving DecidableEq, Repr

/-- Manifest-level errors produced by the embedded part of
`validate_manifest_file`, one constructor per `record_error` call site:
the line-break error (line 478), the `ValueError` propagated from
`file_entity_factory` (line 486), the empty-prefix error (line 502), and a
bundle error list extension (line 534). -/
inductive MErr where
  | linebreak (file_name : List Char)
  | value_error (msg : String)
  | no_file_pfx
  | bundle (e : BErr)
deriving DecidableEq, Repr

/-- The `for row in rows` loop of `Manifest.validate_manifest_file`
(lines 474-492).  The whole loop body sits inside one `try`: a `ValueError`
raised by `file_entity_factory` for some row is caught *outside* the loop,
so it ends the loop — the error is recorded, the manifest is to be marked
INVALID (third component `true`), and no later row is processed.  On
success the entity gets `sample_id` from the row and is appended. -/
def Manifest.classify_rows : List Row → List FileEnt × List MErr × Bool
  | [] => ([], [], false)
  | r :: rest =>
    let lb : List MErr :=
      (r.values.filter (fun v => v.contains '\n')).map (fun _ => MErr.linebreak r.file_name)
    match file_entity_factory r.technique r.file_name with
    | Except.error msg => ([], lb ++ [MErr.value_error msg], true)
    | Except.ok ent =>
      let ent2 := { ent with sample_id := r.sample_id }
      let res := Manifest.classify_rows rest
      (ent2 :: res.1, lb ++ res.2.1, res.2.2)

/-- Distinct elements in first-occurrence order (Python dict key order). -/
def firstOccur {α : Type} [DecidableEq α] (l : List α) : List α :=
  l.foldl (fun acc a => if a ∈ acc then acc else acc ++ [a]) []

/-- The iteration order of the nested `file_prefixes` dict (lines 494-527):
prefixes in first-occurrence order, and per prefix its file types in
first-occurrence order; only bundled entities are inserted. -/
def Manifest.group_keys (files : List FileEnt) : List (List Char × String) :=
  let bundled := files.filter (fun f => f.is_bundled)
  (firstOccur (bundled.map FileEnt.file_pfx)).flatMap
    (fun p =>
      (firstOccur ((bundled.filter (fun f => f.file_pfx = p)).map FileEnt.file_type)).map
        (fun t => (p, t)))

/-- The member list of one (prefix, type) group, in row order. -/
def Manifest.group_members (files : List FileEnt) (p : List Char) (t : String) : List FileEnt :=
  files.filter (fun f => f.is_bundled && decide (f.file_pfx = p) && decide (f.file_type = t))

/-- Lines 472-543 of `Manifest.validate_manifest_file`: classify the rows,
flag empty prefixes, group the bundled entities, validate every group whose
type has a `BUNDLE_LOOKUP` entry (a `KeyError` kind is skipped), and
finalize the manifest state.  Result: final state, error list, return
value.  (`bundle_entity_factory` also strips one trailing dot from the
group prefix it stores on the bundle; that stored prefix does not enter
`validate_contents`.) -/
def Manifest.validate_files_section (rows : List Row) : String × List MErr × Bool :=
  let res := Manifest.classify_rows rows
  let files := res.1
  let st0 := if res.2.2 then "INVALID" else "SUBMITTED"
  let acc1 := files.foldl
    (fun acc f =>
      if f.file_pfx.length = 0 then ("INVALID", acc.2 ++ [MErr.no_file_pfx]) else acc)
    (st0, res.2.1)
  let acc2 := (Manifest.group_keys files).foldl
    (fun acc k =>
      match BUNDLE_LOOKUP k.2 with
      | some validate =>
        let b := validate (Manifest.group_members files k.1 k.2)
        if b.state = "INVALID" then ("INVALID", acc.2 ++ b.errors.map MErr.bundle) else acc
      | none => acc)
    acc1
  if acc2.1 = "INVALID" then ("INVALID", acc2.2, false) else ("VALID", acc2.2, true)

/-- A row whose `File_name` matches no classification pattern. -/
def badRow : Row :=
  { file_name := "strange_file".data, technique := "10x genomics sequencing",
    sample_id := "s1", values := [] }

/-- A row whose `File_name` classifies as a BAM file. -/
def goodRow : Row :=
  { file_name := "sampleB.bam".data, technique := "10x genomics sequencing",
    sample_id := "s1", values := [] }

/-! ## Helper lemmas for the bundle theorems -/

/-- When the component files agree on sample id and on path metadata, the
`FileBundle.validate_contents` preamble changes nothing. -/
lemma validate_super_eq (files : List FileEnt) (b : BState)
    (hsam : (files.map FileEnt.sample_id).dedup.length ≤ 1)
    (hdir : (files.map FileEnt.validated_dir).dedup.length ≤ 1) :
    FileBundle.validate_contents files b = b := by
  unfold FileBundle.validate_contents
  rw [if_neg (Nat.not_lt.mpr hsam), if_neg (Nat.not_lt.mpr hdir)]

/-- With no duplicate subtype, `dupSubtypeCheck` changes nothing. -/
lemma dupSubtypeCheck_eq (subs : List String) (b : BState) (h : subs.Nodup) :
    dupSubtypeCheck subs b = b := by
  unfold dupSubtypeCheck
  rw [if_pos (by rw [h.dedup])]

/-! ## Search lemmas -/

lemma searchPat_eq_none (p : RePat) :
    ∀ (t pre : List Char),
      (∀ i ≤ t.length, p (pre ++ t.take i) (t.drop i) = none) →
      searchPat p pre t = none
  | [], pre, h => by
    have h0 := h 0 (by simp)
    simp only [List.take_nil, List.append_nil, List.drop_nil] at h0
    simp [searchPat, h0]
  | c :: cs, pre, h => by
    have h0 := h 0 (by simp)
    simp only [List.take_zero, List.append_nil, List.drop_zero] at h0
    have hrec := searchPat_eq_none p cs (pre ++ [c]) (by
      intro i hi
      have := h (i + 1) (by simpa using Nat.succ_le_succ hi)
      simpa [List.append_assoc] using this)
    simp [searchPat, h0, hrec]

lemma searchPat_eq_some (p : RePat) :
    ∀ (t pre : List Char) (k n : Nat), k ≤ t.length →
      (∀ i < k, p (pre ++ t.take i) (t.drop i) = none) →
      p (pre ++ t.take k) (t.drop k) = some n →
      searchPat p pre t = some (pre ++ t.take k, n)
  | t, pre, 0, n, _, _, hk => by
    cases t with
    | nil =>
      simp only [List.take_nil, List.append_nil, List.drop_nil] at hk
      simp [searchPat, hk]
    | cons c cs =>
      simp only [List.take_zero, List.append_nil, List.drop_zero] at hk
      simp [searchPat, hk]
  | t, pre, (k + 1), n, hle, hlt, hk => by
    cases t with
    | nil => simp at hle
    | cons c cs =>
      have h0 := hlt 0 (Nat.succ_pos k)
      simp only [List.take_zero, List.append_nil, List.drop_zero] at h0
      have hrec := searchPat_eq_some p cs (pre ++ [c]) k n (Nat.le_of_succ_le_succ hle)
        (by
          intro i hi
          have := hlt (i + 1) (Nat.succ_lt_succ hi)
          simpa [List.append_assoc] using this)
        (by simpa [List.append_assoc] using hk)
      simp [searchPat, h0, hrec, List.append_assoc]

lemma reSearch_eq_none (p : RePat) (s : List Char)
    (h : ∀ i ≤ s.length, p (s.take i) (s.drop i) = none) : reSearch p s = none := by
  unfold reSearch
  exact searchPat_eq_none p s [] (by simpa using h)

lemma reSearch_eq_some (p : RePat) (s : List Char) (k n : Nat) (hle : k ≤ s.length)
    (hlt : ∀ i < k, p (s.take i) (s.drop i) = none)
    (hk : p (s.take k) (s.drop k) = some n) : reSearch p s = some (s.take k, n) := by
  unfold reSearch
  have := searchPat_eq_some p s [] k n hle (by simpa using hlt) (by simpa using hk)
  simpa using this

lemma reSearch_suffixOneOf_eq_none (alts : List (List Char)) (s : List Char)
    (h : ∀ a ∈ alts, ¬ a <:+ s) : reSearch (suffixOneOf alts) s = none := by
  apply reSearch_eq_none
  intro i _
  simp only [suffixOneOf]
  rw [if_neg]
  intro hmem
  exact h _ hmem (List.drop_suffix i s)

lemma reSearch_suffixOneOfNotBehind_eq_none (alts bad : List (List Char)) (s : List Char)
    (h : ∀ a ∈ alts, ¬ a <:+ s) : reSearch (suffixOneOfNotBehind alts bad) s = none := by
  apply reSearch_eq_none
  intro i _
  simp only [suffixOneOfNotBehind]
  rw [if_neg]
  intro hmem
  exact h _ hmem.1 (List.drop_suffix i s)

lemma noSuffix_of_ext {A : List (List Char)} {e s : List Char}
    (he : e <:+ s) (h : ∀ a ∈ A, ¬ a <:+ e ∧ ¬ e <:+ a) : ∀ a ∈ A, ¬ a <:+ s := by
  intro a ha hs
  rcases List.suffix_or_suffix_of_suffix hs he with h' | h'
  · exact (h a ha).1 h'
  · exact (h a ha).2 h'

lemma suffix_append_right_of_suffix {a b t : List Char} (h : a <:+ b) : a ++ t <:+ b ++ t := by
  obtain ⟨c, rfl⟩ := h
  exact ⟨c, (List.append_assoc c a t).symm⟩

/-! ## C6 development -/

lemma earlier8_none (s : List Char)
    (he : ".csv".data <:+ s ∨ ".csv.gz".data <:+ s) :
    reSearch BAM_PTRN s = none ∧ reSearch BAI_PTRN s = none ∧
    reSearch BED_PTRN s = none ∧ reSearch QBED_PTRN s = none ∧
    reSearch BIGBED_PTRN s = none ∧ reSearch BIGWIG_PTRN s = none ∧
    reSearch CRAM_PTRN s = none ∧ reSearch CRAI_PTRN s = none := by
  rcases he with he | he
  · exact ⟨reSearch_suffixOneOf_eq_none _ _ (noSuffix_of_ext he (by decide)),
      reSearch_suffixOneOf_eq_none _ _ (noSuffix_of_ext he (by decide)),
      reSearch_suffixOneOfNotBehind_eq_none _ _ _ (noSuffix_of_ext he (by decide)),
      reSearch_suffixOneOfNotBehind_eq_none _ _ _ (noSuffix_of_ext he (by decide)),
      reSearch_suffixOneOf_eq_none _ _ (noSuffix_of_ext he (by decide)),
      reSearch_suffixOneOf_eq_none _ _ (noSuffix_of_ext he (by decide)),
      reSearch_suffixOneOf_eq_none _ _ (noSuffix_of_ext he (by decide)),
      reSearch_suffixOneOf_eq_none _ _ (noSuffix_of_ext he (by decide))⟩
  · exact ⟨reSearch_suffixOneOf_eq_none _ _ (noSuffix_of_ext he (by decide)),
      reSearch_suffixOneOf_eq_none _ _ (noSuffix_of_ext he (by decide)),
      reSearch_suffixOneOfNotBehind_eq_none _ _ _ (noSuffix_of_ext he (by decide)),
      reSearch_suffixOneOfNotBehind_eq_none _ _ _ (noSuffix_of_ext he (by decide)),
      reSearch_suffixOneOf_eq_none _ _ (noSuffix_of_ext he (by decide)),
      reSearch_suffixOneOf_eq_none _ _ (noSuffix_of_ext he (by decide)),
      reSearch_suffixOneOf_eq_none _ _ (noSuffix_of_ext he (by decide)),
      reSearch_suffixOneOf_eq_none _ _ (noSuffix_of_ext he (by decide))⟩

-- part (a) with suffix "_nuc_hash.csv"
example (s : List Char) (hs : "_nuc_hash.csv".data <:+ s) :
    (findFirstMatch FILE_TYPE_LOOKUPS s).map Prod.snd = some "CELLHASH_CSV" := by
  obtain ⟨u, rfl⟩ := hs
  have hcsv : ".csv".data <:+ u ++ "_nuc_hash.csv".data :=
    List.IsSuffix.trans (by decide) (List.suffix_append u _)
  obtain ⟨h1, h2, h3, h4, h5, h6, h7, h8⟩ := earlier8_none _ (Or.inl hcsv)
  have hcsvnone : reSearch CSV_PTRN (u ++ "_nuc_hash.csv".data) = none := by
    apply reSearch_eq_none
    intro i _
    show suffixOneOfNotBehind _ _ _ _ = none
    simp only [suffixOneOfNotBehind]
    rw [if_neg]
    rintro ⟨hmem, hbad⟩
    have hdropsuf := List.drop_suffix i (u ++ "_nuc_hash.csv".data)
    rcases List.mem_pair.mp hmem with hd | hd
    · -- drop i = ".csv": the lookbehind "_nuc_hash" is right before it
      have hsplit := List.take_append_drop i (u ++ "_nuc_hash.csv".data)
      rw [hd] at hsplit
      have hs2 : List.take i (u ++ "_nuc_hash.csv".data) ++ ".csv".data =
          (u ++ "_nuc_hash".data) ++ ".csv".data := by
        rw [hsplit, List.append_assoc]
        rw [(by decide : ("_nuc_hash".data ++ ".csv".data : List Char) = "_nuc_hash.csv".data)]
      have htake := List.append_cancel_right hs2
      exact hbad ("_nuc_hash".data) (List.mem_singleton.mpr rfl)
        (htake ▸ List.suffix_append u ("_nuc_hash".data))
    · -- drop i = ".csv.gz": incompatible with the "_nuc_hash.csv" suffix
      have hsuf := hd ▸ hdropsuf
      rcases List.suffix_or_suffix_of_suffix hsuf (List.suffix_append u _) with h' | h' <;>
        revert h' <;> decide
  have hch : reSearch CELLHASH_CSV_PTRN (u ++ "_nuc_hash.csv".data) = some (u, 13) := by
    have hmain := reSearch_eq_some CELLHASH_CSV_PTRN (u ++ "_nuc_hash.csv".data) u.length 13
      (by simp)
      (by
        intro i hi
        show suffixOneOf _ _ _ = none
        simp only [suffixOneOf]
        rw [if_neg]
        intro hmem
        have hdropsuf := List.drop_suffix i (u ++ "_nuc_hash.csv".data)
        rcases List.mem_pair.mp hmem with hd | hd
        · have hlen := congrArg List.length hd
          simp at hlen
          omega
        · have hsuf := hd ▸ hdropsuf
          rcases List.suffix_or_suffix_of_suffix hsuf (List.suffix_append u _) with h' | h' <;>
            revert h' <;> decide)
      (by
        rw [List.take_left, List.drop_left]
        show suffixOneOf _ _ _ = _
        simp only [suffixOneOf]
        rw [if_pos (by decide)]
        rfl)
    rw [List.take_left] at hmain
    exact hmain
  simp [FILE_TYPE_LOOKUPS, findFirstMatch, patOf, h1, h2, h3, h4, h5, h6, h7, h8,
    hcsvnone, hch]

/-! ## C7 infrastructure -/

lemma searchPat_isSome (p : RePat) :
    ∀ (t pre : List Char) (i : Nat), i ≤ t.length →
      p (pre ++ t.take i) (t.drop i) ≠ none → (searchPat p pre t).isSome = true
  | [], pre, i, hle, h => by
    have hi : i = 0 := Nat.le_zero.mp (by simpa using hle)
    subst hi
    simp only [List.take_nil, List.append_nil, List.drop_nil] at h
    simp only [searchPat]
    cases hp : p pre [] with
    | none => exact absurd hp h
    | some n => simp
  | c :: cs, pre, i, hle, h => by
    cases hp : p pre (c :: cs) with
    | some n => simp [searchPat, hp]
    | none =>
      cases i with
      | zero =>
        simp only [List.take_zero, List.append_nil, List.drop_zero] at h
        exact absurd hp h
      | succ j =>
        have := searchPat_isSome p cs (pre ++ [c]) j (Nat.le_of_succ_le_succ hle)
          (by simpa [List.append_assoc] using h)
        simp [searchPat, hp, this]

lemma reSearch_isSome (p : RePat) (s : List Char) (i : Nat) (hle : i ≤ s.length)
    (h : p (s.take i) (s.drop i) ≠ none) : (reSearch p s).isSome = true := by
  unfold reSearch
  exact searchPat_isSome p s [] i hle (by simpa using h)

lemma roleMarkers_not_lane (r : FRole) (m : List Char) (hm : m ∈ roleMarkers r)
    (t : List Char) : laneStartB (m ++ t) = false := by
  cases r <;> fin_cases hm <;> simp [laneStartB, laneLen]

lemma rolePat_pos (r : FRole) (m tail pre : List Char) (hm : m ∈ roleMarkers r)
    (hopt : optThenExt tail = true) :
    rolePat r pre (m ++ tail) = some (m ++ tail).length := by
  unfold rolePat
  rw [if_pos]
  rw [roleMarkers_not_lane r m hm tail]
  simp only [Bool.not_false, Bool.true_and, List.any_eq_true]
  exact ⟨m, hm, by
    simp [List.isPrefixOf_iff_prefix, List.prefix_append, List.drop_left, hopt]⟩

lemma rolePat_nil (r : FRole) (pre : List Char) : rolePat r pre [] = none := by
  cases r <;> rfl

lemma ext_suffix_of_optThenExt (t : List Char) (h : optThenExt t = true) :
    ∃ e ∈ FASTQ_EXTS, e <:+ t := by
  unfold optThenExt at h
  simp only [Bool.or_eq_true, Bool.and_eq_true, decide_eq_true_eq] at h
  rcases h with (((h | h) | h) | h) | h
  · exact ⟨t, h, List.suffix_refl t⟩
  · rcases t with _ | ⟨c0, _ | ⟨c1, _ | ⟨c2, _ | ⟨c3, rest⟩⟩⟩⟩ <;>
      simp [digitOpt, Bool.and_eq_true, decide_eq_true_eq] at h
    exact ⟨rest, by tauto, ⟨[c0, c1, c2, c3], rfl⟩⟩
  · exact ⟨t.drop 4, h.2, List.drop_suffix 4 t⟩
  · exact ⟨t.drop 8, h.2, List.drop_suffix 8 t⟩
  · exact ⟨t.drop 7, h.2, List.drop_suffix 7 t⟩

lemma pre_fastq_none (s e : List Char) (hE : e ∈ FASTQ_EXTS) (he : e <:+ s) :
    reSearch BAM_PTRN s = none ∧ reSearch BAI_PTRN s = none ∧
    reSearch BED_PTRN s = none ∧ reSearch QBED_PTRN s = none ∧
    reSearch BIGBED_PTRN s = none ∧ reSearch BIGWIG_PTRN s = none ∧
    reSearch CRAM_PTRN s = none ∧ reSearch CRAI_PTRN s = none ∧
    reSearch CSV_PTRN s = none ∧ reSearch CELLHASH_CSV_PTRN s = none := by
  refine ⟨reSearch_suffixOneOf_eq_none _ _ (noSuffix_of_ext he ((by decide :
      ∀ e2 ∈ FASTQ_EXTS, ∀ a ∈ [".bam".data], ¬ a <:+ e2 ∧ ¬ e2 <:+ a) e hE)),
    reSearch_suffixOneOf_eq_none _ _ (noSuffix_of_ext he ((by decide :
      ∀ e2 ∈ FASTQ_EXTS, ∀ a ∈ [".bam.bai".data], ¬ a <:+ e2 ∧ ¬ e2 <:+ a) e hE)),
    reSearch_suffixOneOfNotBehind_eq_none _ _ _ (noSuffix_of_ext he ((by decide :
      ∀ e2 ∈ FASTQ_EXTS, ∀ a ∈ [".bed".data, ".bed.gz".data], ¬ a <:+ e2 ∧ ¬ e2 <:+ a) e hE)),
    reSearch_suffixOneOfNotBehind_eq_none _ _ _ (noSuffix_of_ext he ((by decide :
      ∀ e2 ∈ FASTQ_EXTS, ∀ a ∈ [".qbed".data, ".qbed.gz".data], ¬ a <:+ e2 ∧ ¬ e2 <:+ a) e hE)),
    reSearch_suffixOneOf_eq_none _ _ (noSuffix_of_ext he ((by decide :
      ∀ e2 ∈ FASTQ_EXTS, ∀ a ∈ [".bb".data, ".bigBed".data, ".bigbed".data,
        ".bb.gz".data, ".bigBed.gz".data, ".bigbed.gz".data], ¬ a <:+ e2 ∧ ¬ e2 <:+ a) e hE)),
    reSearch_suffixOneOf_eq_none _ _ (noSuffix_of_ext he ((by decide :
      ∀ e2 ∈ FASTQ_EXTS, ∀ a ∈ [".bw".data, ".bigWig".data, ".bigwig".data,
        ".bw.gz".data, ".bigWig.gz".data, ".bigwig.gz".data], ¬ a <:+ e2 ∧ ¬ e2 <:+ a) e hE)),
    reSearch_suffixOneOf_eq_none _ _ (noSuffix_of_ext he ((by decide :
      ∀ e2 ∈ FASTQ_EXTS, ∀ a ∈ [".cram".data], ¬ a <:+ e2 ∧ ¬ e2 <:+ a) e hE)),
    reSearch_suffixOneOf_eq_none _ _ (noSuffix_of_ext he ((by decide :
      ∀ e2 ∈ FASTQ_EXTS, ∀ a ∈ [".cram.crai".data], ¬ a <:+ e2 ∧ ¬ e2 <:+ a) e hE)),
    reSearch_suffixOneOfNotBehind_eq_none _ _ _ (noSuffix_of_ext he ((by decide :
      ∀ e2 ∈ FASTQ_EXTS, ∀ a ∈ [".csv".data, ".csv.gz".data], ¬ a <:+ e2 ∧ ¬ e2 <:+ a) e hE)),
    reSearch_suffixOneOf_eq_none _ _ (noSuffix_of_ext he ((by decide :
      ∀ e2 ∈ FASTQ_EXTS, ∀ a ∈ ["_nuc_hash.csv".data, "_nuc_hash.csv.gz".data],
        ¬ a <:+ e2 ∧ ¬ e2 <:+ a) e hE))⟩

lemma role_search_some (name h m tail : List Char) (r : FRole)
    (hname : name = h ++ (m ++ tail)) (hm : m ∈ roleMarkers r)
    (hopt : optThenExt tail = true)
    (hU : ∀ i < name.length, ∀ r2 ∈ allRoles,
      (rolePat r2 (name.take i) (name.drop i)).isSome = true → i = h.length ∧ r2 = r) :
    reSearch (rolePat r) name = some (h, (m ++ tail).length) := by
  subst hname
  have hres := reSearch_eq_some (rolePat r) (h ++ (m ++ tail)) h.length ((m ++ tail).length)
    (by simp)
    (by
      intro i hi
      by_contra hne
      have hsome : (rolePat r ((h ++ (m ++ tail)).take i) ((h ++ (m ++ tail)).drop i)).isSome = true := by
        cases hx : rolePat r ((h ++ (m ++ tail)).take i) ((h ++ (m ++ tail)).drop i) with
        | none => exact absurd hx hne
        | some n => rfl
      have := hU i (by simp [List.length_append]; omega) r (by cases r <;> decide) hsome
      omega)
    (by
      rw [List.take_left, List.drop_left]
      exact rolePat_pos r m tail h hm hopt)
  rw [List.take_left] at hres
  exact hres

lemma role_search_none (name h : List Char) (r r2 : FRole)
    (hU : ∀ i < name.length, ∀ r3 ∈ allRoles,
      (rolePat r3 (name.take i) (name.drop i)).isSome = true → i = h.length ∧ r3 = r)
    (hr2 : r2 ∈ allRoles) (hne : r2 ≠ r) :
    reSearch (rolePat r2) name = none := by
  apply reSearch_eq_none
  intro i hi
  rcases Nat.lt_or_ge i name.length with hlt | hge
  · by_contra hnone
    have hsome : (rolePat r2 (name.take i) (name.drop i)).isSome = true := by
      cases hx : rolePat r2 (name.take i) (name.drop i) with
      | none => exact absurd hx hnone
      | some n => rfl
    exact hne (hU i hlt r2 hr2 hsome).2
  · have : name.drop i = [] := List.drop_eq_nil_of_le hge
    rw [this]
    exact rolePat_nil r2 _

lemma determine_std (tech : String) (name h m tail : List Char) (r : FRole)
    (hname : name = h ++ (m ++ tail)) (hm : m ∈ roleMarkers r)
    (hopt : optThenExt tail = true)
    (hct : pyLower tech ≠ CELLHASH_TECH)
    (hU : ∀ i < name.length, ∀ r2 ∈ allRoles,
      (rolePat r2 (name.take i) (name.drop i)).isSome = true → i = h.length ∧ r2 = r) :
    determine_fastq_component_filetype tech name = some (.ROLE r, roleSubtypeName r) := by
  have hsome := role_search_some name h m tail r hname hm hopt hU
  unfold determine_fastq_component_filetype
  rw [if_neg hct]
  cases r with
  | R1 => simp [hsome, roleSubtypeName]
  | R2 =>
    rw [role_search_none name h _ .R1 hU (by decide) (by decide)]
    simp [hsome, roleSubtypeName]
  | R3 =>
    rw [role_search_none name h _ .R1 hU (by decide) (by decide),
        role_search_none name h _ .R2 hU (by decide) (by decide)]
    simp [hsome, roleSubtypeName]
  | I1 =>
    rw [role_search_none name h _ .R1 hU (by decide) (by decide),
        role_search_none name h _ .R2 hU (by decide) (by decide),
        role_search_none name h _ .R3 hU (by decide) (by decide)]
    simp [hsome, roleSubtypeName]
  | I2 =>
    rw [role_search_none name h _ .R1 hU (by decide) (by decide),
        role_search_none name h _ .R2 hU (by decide) (by decide),
        role_search_none name h _ .R3 hU (by decide) (by decide),
        role_search_none name h _ .I1 hU (by decide) (by decide)]
    simp [hsome, roleSubtypeName]

lemma factory_role (tech : String) (name h m tail : List Char) (r : FRole)
    (hname : name = h ++ (m ++ tail)) (hm : m ∈ roleMarkers r)
    (hopt : optThenExt tail = true)
    (hct : pyLower tech ≠ CELLHASH_TECH)
    (hU : ∀ i < name.length, ∀ r2 ∈ allRoles,
      (rolePat r2 (name.take i) (name.drop i)).isSome = true → i = h.length ∧ r2 = r)
    (hh : h ≠ []) :
    file_entity_factory tech name = Except.ok
      { file_type := "FASTQ", file_subtype := roleSubtypeName r, file_pfx := h,
        technique := tech, sample_id := "", validated_dir := none, is_bundled := true } := by
  -- the main loop reaches the FASTQ pattern
  obtain ⟨e, hE, hetail⟩ := ext_suffix_of_optThenExt tail hopt
  have hesuf : e <:+ name := by
    rw [hname]
    exact hetail.trans ((List.suffix_append m tail).trans (List.suffix_append h (m ++ tail)))
  obtain ⟨h1, h2, h3, h4, h5, h6, h7, h8, h9, h10⟩ := pre_fastq_none name e hE hesuf
  have hfq : (reSearch FASTQ_PTRN name).isSome = true := by
    obtain ⟨w, hw⟩ := hesuf
    apply reSearch_isSome FASTQ_PTRN name w.length (by rw [← hw]; simp)
    rw [← hw, List.take_left, List.drop_left]
    show suffixOneOf _ _ _ ≠ none
    simp only [suffixOneOf]
    rw [if_pos hE]
    simp
  have hdet := determine_std tech name h m tail r hname hm hopt hct hU
  have hsome := role_search_some name h m tail r hname hm hopt hU
  have hffm : findFirstMatch FILE_TYPE_LOOKUPS name = some (.FASTQ, "FASTQ") := by
    simp [FILE_TYPE_LOOKUPS, findFirstMatch, patOf, h1, h2, h3, h4, h5, h6, h7, h8, h9, h10, hfq]
  have hpost : name.drop (h.length + (m ++ tail).length) = [] := by
    apply List.drop_eq_nil_of_le
    rw [hname]
    simp [List.length_append]
  have hchain : fastqSecondHalfChain name = (h, []) := by
    unfold fastqSecondHalfChain
    have hself : (reSearch (rolePat r) name).isSome = true := by rw [hsome]; rfl
    have hpre : splitPre (.ROLE r) name = h := by
      unfold splitPre
      simp only [patOf]
      rw [hsome]
    have hpost2 : splitPost (.ROLE r) name = [] := by
      unfold splitPost
      simp only [patOf]
      rw [hsome]
      exact hpost
    have hnil : fastqSplit0 (pathStem []) = [] := rfl
    cases r with
    | R1 =>
      simp only [hself, if_true, hpre, hpost2, hnil]
    | R2 =>
      rw [role_search_none name h _ .R1 hU (by decide) (by decide)]
      simp only [Option.isSome_none, Bool.false_eq_true, if_false,
        hself, if_true, hpre, hpost2, hnil]
    | R3 =>
      rw [role_search_none name h _ .R1 hU (by decide) (by decide),
          role_search_none name h _ .R2 hU (by decide) (by decide)]
      simp only [Option.isSome_none, Bool.false_eq_true, if_false,
        hself, if_true, hpre, hpost2, hnil]
    | I1 =>
      rw [role_search_none name h _ .R1 hU (by decide) (by decide),
          role_search_none name h _ .R2 hU (by decide) (by decide),
          role_search_none name h _ .R3 hU (by decide) (by decide)]
      simp only [Option.isSome_none, Bool.false_eq_true, if_false,
        hself, if_true, hpre, hpost2, hnil]
    | I2 =>
      rw [role_search_none name h _ .R1 hU (by decide) (by decide),
          role_search_none name h _ .R2 hU (by decide) (by decide),
          role_search_none name h _ .R3 hU (by decide) (by decide),
          role_search_none name h _ .I1 hU (by decide) (by decide)]
      simp only [Option.isSome_none, Bool.false_eq_true, if_false,
        hself, if_true, hpre, hpost2, hnil]
  have hclass : CLASS_LOOKUP (roleSubtypeName r) = some ("FASTQ", true) := by
    cases r <;> rfl
  have hpfx : splitPre (.ROLE r) name = h := by
    unfold splitPre
    simp only [patOf]
    rw [hsome]
  have hchop : unsightlyChopEnd (h ++ ('-' :: unsightlyChopSecond [])) = h := by
    show unsightlyChopEnd (h ++ ['-']) = h
    unfold unsightlyChopEnd
    rw [List.getLast?_concat]
    simp
  have hnotch : (PatternId.ROLE r) ∉ cellhashPatIds := by cases r <;> decide
  have hyes : (PatternId.ROLE r) ∈ splitTokenPatIds := by cases r <;> decide
  unfold file_entity_factory
  rw [hffm]
  simp only [hdet, eq_self_iff_true, if_true, hclass, hpfx,
    if_neg (show ¬ h.length = 0 by simpa [List.length_eq_zero] using hh),
    if_neg hnotch, if_pos hyes, hchain, hchop]

lemma cellhashPat_pos (r : FRole) (g tail pre : List Char)
    (hg : laneLen (g ++ (cellhashMarker r ++ tail)) = some g.length)
    (hopt : cellhashOptExt tail = true) :
    cellhashPat r pre (g ++ (cellhashMarker r ++ tail)) =
      some (g ++ (cellhashMarker r ++ tail)).length := by
  have hdrop1 : (g ++ (cellhashMarker r ++ tail)).drop g.length = cellhashMarker r ++ tail :=
    List.drop_left g _
  have hdrop2 : (g ++ (cellhashMarker r ++ tail)).drop (g.length + (cellhashMarker r).length) =
      tail := by
    rw [← List.drop_drop, hdrop1, List.drop_left]
  unfold cellhashPat
  rw [hg]
  show (if ((cellhashMarker r).isPrefixOf ((g ++ (cellhashMarker r ++ tail)).drop g.length) &&
      cellhashOptExt ((g ++ (cellhashMarker r ++ tail)).drop
        (g.length + (cellhashMarker r).length))) = true
    then some (g ++ (cellhashMarker r ++ tail)).length else none) =
    some (g ++ (cellhashMarker r ++ tail)).length
  rw [hdrop1, hdrop2,
    if_pos (by simp [List.isPrefixOf_iff_prefix, List.prefix_append, hopt])]

lemma cellhashPat_nil (r : FRole) (pre : List Char) : cellhashPat r pre [] = none := by
  cases r <;> rfl

lemma ch_search_some (name h g tail : List Char) (r : FRole)
    (hname : name = h ++ (g ++ (cellhashMarker r ++ tail)))
    (hg : laneLen (g ++ (cellhashMarker r ++ tail)) = some g.length)
    (hopt : cellhashOptExt tail = true)
    (hU : ∀ i < name.length, ∀ r2 ∈ allRoles,
      (cellhashPat r2 (name.take i) (name.drop i)).isSome = true → i = h.length ∧ r2 = r) :
    reSearch (cellhashPat r) name = some (h, (g ++ (cellhashMarker r ++ tail)).length) := by
  subst hname
  have hres := reSearch_eq_some (cellhashPat r) (h ++ (g ++ (cellhashMarker r ++ tail)))
    h.length ((g ++ (cellhashMarker r ++ tail)).length)
    (by simp)
    (by
      intro i hi
      by_contra hne
      have hsome : (cellhashPat r ((h ++ (g ++ (cellhashMarker r ++ tail))).take i)
          ((h ++ (g ++ (cellhashMarker r ++ tail))).drop i)).isSome = true := by
        cases hx : cellhashPat r ((h ++ (g ++ (cellhashMarker r ++ tail))).take i)
            ((h ++ (g ++ (cellhashMarker r ++ tail))).drop i) with
        | none => exact absurd hx hne
        | some n => rfl
      have := hU i (by simp [List.length_append]; omega) r (by cases r <;> decide) hsome
      omega)
    (by
      rw [List.take_left, List.drop_left]
      exact cellhashPat_pos r g tail h hg hopt)
  rw [List.take_left] at hres
  exact hres

lemma ch_search_none (name h : List Char) (r r2 : FRole)
    (hU : ∀ i < name.length, ∀ r3 ∈ allRoles,
      (cellhashPat r3 (name.take i) (name.drop i)).isSome = true → i = h.length ∧ r3 = r)
    (hr2 : r2 ∈ allRoles) (hne : r2 ≠ r) :
    reSearch (cellhashPat r2) name = none := by
  apply reSearch_eq_none
  intro i hi
  rcases Nat.lt_or_ge i name.length with hlt | hge
  · by_contra hnone
    have hsome : (cellhashPat r2 (name.take i) (name.drop i)).isSome = true := by
      cases hx : cellhashPat r2 (name.take i) (name.drop i) with
      | none => exact absurd hx hnone
      | some n => rfl
    exact hne (hU i hlt r2 hr2 hsome).2
  · rw [List.drop_eq_nil_of_le hge]
    exact cellhashPat_nil r2 _

lemma determine_ch (tech : String) (name h g tail : List Char) (r : FRole)
    (hname : name = h ++ (g ++ (cellhashMarker r ++ tail)))
    (hg : laneLen (g ++ (cellhashMarker r ++ tail)) = some g.length)
    (hopt : cellhashOptExt tail = true)
    (hct : pyLower tech = CELLHASH_TECH)
    (hU : ∀ i < name.length, ∀ r2 ∈ allRoles,
      (cellhashPat r2 (name.take i) (name.drop i)).isSome = true → i = h.length ∧ r2 = r) :
    determine_fastq_component_filetype tech name =
      some (.CELLHASH_FASTQ r, cellhashSubtypeName r) := by
  have hsome := ch_search_some name h g tail r hname hg hopt hU
  unfold determine_fastq_component_filetype
  rw [if_pos hct]
  cases r with
  | R1 => simp [hsome, cellhashSubtypeName]
  | R2 =>
    rw [ch_search_none name h _ .R1 hU (by decide) (by decide)]
    simp [hsome, cellhashSubtypeName]
  | R3 =>
    rw [ch_search_none name h _ .R1 hU (by decide) (by decide),
        ch_search_none name h _ .R2 hU (by decide) (by decide)]
    simp [hsome, cellhashSubtypeName]
  | I1 =>
    rw [ch_search_none name h _ .R1 hU (by decide) (by decide),
        ch_search_none name h _ .R2 hU (by decide) (by decide),
        ch_search_none name h _ .R3 hU (by decide) (by decide)]
    simp [hsome, cellhashSubtypeName]
  | I2 =>
    rw [ch_search_none name h _ .R1 hU (by decide) (by decide),
        ch_search_none name h _ .R2 hU (by decide) (by decide),
        ch_search_none name h _ .R3 hU (by decide) (by decide),
        ch_search_none name h _ .I1 hU (by decide) (by decide)]
    simp [hsome, cellhashSubtypeName]

lemma factory_ch (tech : String) (name h g tail : List Char) (r : FRole)
    (hname : name = h ++ (g ++ (cellhashMarker r ++ tail)))
    (hg : laneLen (g ++ (cellhashMarker r ++ tail)) = some g.length)
    (hopt : cellhashOptExt tail = true)
    (hct : pyLower tech = CELLHASH_TECH)
    (hU : ∀ i < name.length, ∀ r2 ∈ allRoles,
      (cellhashPat r2 (name.take i) (name.drop i)).isSome = true → i = h.length ∧ r2 = r)
    (hh : h ≠ []) :
    file_entity_factory tech name = Except.ok
      { file_type := "CELLHASH", file_subtype := cellhashSubtypeName r,
        file_pfx := unsightlyChopEnd h,
        technique := tech, sample_id := "", validated_dir := none, is_bundled := true } := by
  have hopt2 : optThenExt tail = true := by
    unfold optThenExt
    unfold cellhashOptExt at hopt
    rw [Bool.or_eq_true] at hopt
    rcases hopt with h1 | h1 <;> simp [h1]
  obtain ⟨e, hE, hetail⟩ := ext_suffix_of_optThenExt tail hopt2
  have hesuf : e <:+ name := by
    rw [hname]
    exact ((hetail.trans (List.suffix_append (cellhashMarker r) tail)).trans
      (List.suffix_append g _)).trans (List.suffix_append h _)
  obtain ⟨h1, h2, h3, h4, h5, h6, h7, h8, h9, h10⟩ := pre_fastq_none name e hE hesuf
  have hfq : (reSearch FASTQ_PTRN name).isSome = true := by
    obtain ⟨w, hw⟩ := hesuf
    apply reSearch_isSome FASTQ_PTRN name w.length (by rw [← hw]; simp)
    rw [← hw, List.take_left, List.drop_left]
    show suffixOneOf _ _ _ ≠ none
    simp only [suffixOneOf]
    rw [if_pos hE]
    simp
  have hdet := determine_ch tech name h g tail r hname hg hopt hct hU
  have hsome := ch_search_some name h g tail r hname hg hopt hU
  have hffm : findFirstMatch FILE_TYPE_LOOKUPS name = some (.FASTQ, "FASTQ") := by
    simp [FILE_TYPE_LOOKUPS, findFirstMatch, patOf, h1, h2, h3, h4, h5, h6, h7, h8, h9, h10, hfq]
  have hclass : CLASS_LOOKUP (cellhashSubtypeName r) = some ("CELLHASH", true) := by
    cases r <;> rfl
  have hpfx : splitPre (.CELLHASH_FASTQ r) name = h := by
    unfold splitPre
    simp only [patOf]
    rw [hsome]
  have hch : (PatternId.CELLHASH_FASTQ r) ∈ cellhashPatIds := by cases r <;> decide
  unfold file_entity_factory
  rw [hffm]
  simp only [hdet, eq_self_iff_true, if_true, hclass, hpfx,
    if_neg (show ¬ h.length = 0 by simpa [List.length_eq_zero] using hh),
    if_pos hch]

/-! ## C6 final lemmas -/

lemma ffm_of_nuc_hash_csv (u : List Char) :
    (findFirstMatch FILE_TYPE_LOOKUPS (u ++ "_nuc_hash.csv".data)).map Prod.snd =
      some "CELLHASH_CSV" := by
  have hcsv : ".csv".data <:+ u ++ "_nuc_hash.csv".data :=
    List.IsSuffix.trans (by decide) (List.suffix_append u _)
  obtain ⟨h1, h2, h3, h4, h5, h6, h7, h8⟩ := earlier8_none _ (Or.inl hcsv)
  have hcsvnone : reSearch CSV_PTRN (u ++ "_nuc_hash.csv".data) = none := by
    apply reSearch_eq_none
    intro i _
    show suffixOneOfNotBehind _ _ _ _ = none
    simp only [suffixOneOfNotBehind]
    rw [if_neg]
    rintro ⟨hmem, hbad⟩
    have hdropsuf := List.drop_suffix i (u ++ "_nuc_hash.csv".data)
    rcases List.mem_pair.mp hmem with hd | hd
    · have hsplit := List.take_append_drop i (u ++ "_nuc_hash.csv".data)
      rw [hd] at hsplit
      have hs2 : List.take i (u ++ "_nuc_hash.csv".data) ++ ".csv".data =
          (u ++ "_nuc_hash".data) ++ ".csv".data := by
        rw [hsplit, List.append_assoc]
        rw [(by decide : ("_nuc_hash".data ++ ".csv".data : List Char) = "_nuc_hash.csv".data)]
      have htake := List.append_cancel_right hs2
      exact hbad ("_nuc_hash".data) (List.mem_singleton.mpr rfl)
        (htake ▸ List.suffix_append u ("_nuc_hash".data))
    · have hsuf := hd ▸ hdropsuf
      rcases List.suffix_or_suffix_of_suffix hsuf (List.suffix_append u _) with h' | h' <;>
        revert h' <;> decide
  have hch : reSearch CELLHASH_CSV_PTRN (u ++ "_nuc_hash.csv".data) = some (u, 13) := by
    have hmain := reSearch_eq_some CELLHASH_CSV_PTRN (u ++ "_nuc_hash.csv".data) u.length 13
      (by simp)
      (by
        intro i hi
        show suffixOneOf _ _ _ = none
        simp only [suffixOneOf]
        rw [if_neg]
        intro hmem
        have hdropsuf := List.drop_suffix i (u ++ "_nuc_hash.csv".data)
        rcases List.mem_pair.mp hmem with hd | hd
        · have hlen := congrArg List.length hd
          simp at hlen
          omega
        · have hsuf := hd ▸ hdropsuf
          rcases List.suffix_or_suffix_of_suffix hsuf (List.suffix_append u _) with h' | h' <;>
            revert h' <;> decide)
      (by
        rw [List.take_left, List.drop_left]
        show suffixOneOf _ _ _ = _
        simp only [suffixOneOf]
        rw [if_pos (by decide)]
        rfl)
    rw [List.take_left] at hmain
    exact hmain
  simp [FILE_TYPE_LOOKUPS, findFirstMatch, patOf, h1, h2, h3, h4, h5, h6, h7, h8,
    hcsvnone, hch]

lemma ffm_of_nuc_hash_csv_gz (u : List Char) :
    (findFirstMatch FILE_TYPE_LOOKUPS (u ++ "_nuc_hash.csv.gz".data)).map Prod.snd =
      some "CELLHASH_CSV" := by
  have hgz : ".csv.gz".data <:+ u ++ "_nuc_hash.csv.gz".data :=
    List.IsSuffix.trans (by decide) (List.suffix_append u _)
  obtain ⟨h1, h2, h3, h4, h5, h6, h7, h8⟩ := earlier8_none _ (Or.inr hgz)
  have hcsvnone : reSearch CSV_PTRN (u ++ "_nuc_hash.csv.gz".data) = none := by
    apply reSearch_eq_none
    intro i _
    show suffixOneOfNotBehind _ _ _ _ = none
    simp only [suffixOneOfNotBehind]
    rw [if_neg]
    rintro ⟨hmem, hbad⟩
    have hdropsuf := List.drop_suffix i (u ++ "_nuc_hash.csv.gz".data)
    rcases List.mem_pair.mp hmem with hd | hd
    · have hsuf := hd ▸ hdropsuf
      rcases List.suffix_or_suffix_of_suffix hsuf (List.suffix_append u _) with h' | h' <;>
        revert h' <;> decide
    · have hsplit := List.take_append_drop i (u ++ "_nuc_hash.csv.gz".data)
      rw [hd] at hsplit
      have hs2 : List.take i (u ++ "_nuc_hash.csv.gz".data) ++ ".csv.gz".data =
          (u ++ "_nuc_hash".data) ++ ".csv.gz".data := by
        rw [hsplit, List.append_assoc]
        rw [(by decide :
          ("_nuc_hash".data ++ ".csv.gz".data : List Char) = "_nuc_hash.csv.gz".data)]
      have htake := List.append_cancel_right hs2
      exact hbad ("_nuc_hash".data) (List.mem_singleton.mpr rfl)
        (htake ▸ List.suffix_append u ("_nuc_hash".data))
  have hch : reSearch CELLHASH_CSV_PTRN (u ++ "_nuc_hash.csv.gz".data) = some (u, 16) := by
    have hmain := reSearch_eq_some CELLHASH_CSV_PTRN (u ++ "_nuc_hash.csv.gz".data) u.length 16
      (by simp)
      (by
        intro i hi
        show suffixOneOf _ _ _ = none
        simp only [suffixOneOf]
        rw [if_neg]
        intro hmem
        have hdropsuf := List.drop_suffix i (u ++ "_nuc_hash.csv.gz".data)
        rcases List.mem_pair.mp hmem with hd | hd
        · have hsuf := hd ▸ hdropsuf
          rcases List.suffix_or_suffix_of_suffix hsuf (List.suffix_append u _) with h' | h' <;>
            revert h' <;> decide
        · have hlen := congrArg List.length hd
          simp at hlen
          omega)
      (by
        rw [List.take_left, List.drop_left]
        show suffixOneOf _ _ _ = _
        simp only [suffixOneOf]
        rw [if_pos (by decide)]
        rfl)
    rw [List.take_left] at hmain
    exact hmain
  simp [FILE_TYPE_LOOKUPS, findFirstMatch, patOf, h1, h2, h3, h4, h5, h6, h7, h8,
    hcsvnone, hch]

lemma ffm_csv_plain (u : List Char) (hnh : ¬ "_nuc_hash".data <:+ u) :
    (findFirstMatch FILE_TYPE_LOOKUPS (u ++ ".csv".data)).map Prod.snd = some "CSV" := by
  have hcsv : ".csv".data <:+ u ++ ".csv".data := List.suffix_append u _
  obtain ⟨h1, h2, h3, h4, h5, h6, h7, h8⟩ := earlier8_none _ (Or.inl hcsv)
  have hcsvsome : reSearch CSV_PTRN (u ++ ".csv".data) = some (u, 4) := by
    have hmain := reSearch_eq_some CSV_PTRN (u ++ ".csv".data) u.length 4
      (by simp)
      (by
        intro i hi
        show suffixOneOfNotBehind _ _ _ _ = none
        simp only [suffixOneOfNotBehind]
        rw [if_neg]
        rintro ⟨hmem, -⟩
        have hdropsuf := List.drop_suffix i (u ++ ".csv".data)
        rcases List.mem_pair.mp hmem with hd | hd
        · have hlen := congrArg List.length hd
          simp at hlen
          omega
        · have hsuf := hd ▸ hdropsuf
          rcases List.suffix_or_suffix_of_suffix hsuf (List.suffix_append u _) with h' | h' <;>
            revert h' <;> decide)
      (by
        rw [List.take_left, List.drop_left]
        show suffixOneOfNotBehind _ _ _ _ = _
        simp only [suffixOneOfNotBehind]
        rw [if_pos ⟨by decide, by simpa using hnh⟩]
        rfl)
    rw [List.take_left] at hmain
    exact hmain
  simp [FILE_TYPE_LOOKUPS, findFirstMatch, patOf, h1, h2, h3, h4, h5, h6, h7, h8, hcsvsome]

lemma ffm_csv_gz (u : List Char) (hnh : ¬ "_nuc_hash".data <:+ u) :
    (findFirstMatch FILE_TYPE_LOOKUPS (u ++ ".csv.gz".data)).map Prod.snd = some "CSV" := by
  have hgz : ".csv.gz".data <:+ u ++ ".csv.gz".data := List.suffix_append u _
  obtain ⟨h1, h2, h3, h4, h5, h6, h7, h8⟩ := earlier8_none _ (Or.inr hgz)
  have hcsvsome : reSearch CSV_PTRN (u ++ ".csv.gz".data) = some (u, 7) := by
    have hmain := reSearch_eq_some CSV_PTRN (u ++ ".csv.gz".data) u.length 7
      (by simp)
      (by
        intro i hi
        show suffixOneOfNotBehind _ _ _ _ = none
        simp only [suffixOneOfNotBehind]
        rw [if_neg]
        rintro ⟨hmem, -⟩
        have hdropsuf := List.drop_suffix i (u ++ ".csv.gz".data)
        rcases List.mem_pair.mp hmem with hd | hd
        · have hlen := congrArg List.length hd
          simp at hlen
          omega
        · have hlen := congrArg List.length hd
          simp at hlen
          omega)
      (by
        rw [List.take_left, List.drop_left]
        show suffixOneOfNotBehind _ _ _ _ = _
        simp only [suffixOneOfNotBehind]
        rw [if_pos ⟨by decide, by simpa using hnh⟩]
        rfl)
    rw [List.take_left] at hmain
    exact hmain
  simp [FILE_TYPE_LOOKUPS, findFirstMatch, patOf, h1, h2, h3, h4, h5, h6, h7, h8, hcsvsome]


/-! ## Claim theorems: bundle state machine (C1-C5) -/

/-- C1.  The claimed finalization rule — "no recorded error and not already
INVALID implies VALID; any recorded error implies INVALID" — fails on the
code for two of the thirteen kinds.  `SnapBundle.validate_contents` guards
its finalization with `if self.state == "NOT_BUNDLED"` (underscore) while
the actual state string is `"NOT BUNDLED"` (space), so an error-free SNAP
group is left in state `"NOT BUNDLED"`, not `"VALID"`.
`TSVBundle.validate_contents` ends with an unconditional
`self.set_state("VALID")`, so a TSV group with a recorded duplicate-subtype
error ends `"VALID"`, not `"INVALID"`.  This theorem evaluates the embedded
code on both failing inputs. -/
theorem snap_and_tsv_break_finalization :
    SnapBundle.validate_contents [snapFile] = { state := "NOT BUNDLED", errors := [] } ∧
    TSVBundle.validate_contents [tsvFile, tsvFile] =
      { state := "VALID", errors := [BErr.dup_subtype] } := by
  decide

/-- C2.  The claim — a duplicate subtype in a candidate group always leaves
the bundle INVALID with a duplicate-subtype error, for every bundleable
kind — fails for the TSV kind: the duplicate-subtype error is recorded and
the state is set INVALID, but `TSVBundle.validate_contents` then overwrites
the state with an unconditional `self.set_state("VALID")`, so the group of
two TSV-subtype files for one prefix ends in state `"VALID"`. -/
theorem tsv_duplicate_subtype_ends_valid :
    (TSVBundle.validate_contents [tsvFile, tsvFile]).errors = [BErr.dup_subtype] ∧
    (TSVBundle.validate_contents [tsvFile, tsvFile]).state = "VALID" := by
  decide

/-- C3.  For a FASTQ candidate group with a standard technique (not the
lower-cased PacBio/Nanopore literals, not sci-RNA-seq3), no duplicate
subtypes and agreeing sample/path metadata: subtypes exactly
READ1+READ2+INDEX1+INDEX2 give state VALID with no errors, and the same
group without INDEX1 (INDEX2 still present) gives state INVALID with
exactly one missing-subtype error, naming FASTQ_INDEX1. -/
theorem fastq_standard_completeness :
    (∀ (files : List FileEnt) (tech : String),
      (files.headD default).technique = tech →
      tech ≠ pyLower ("PacBio long read sequencing") →
      tech ≠ pyLower ("Oxford Nanopore long read sequencing") →
      pyLower tech ≠ "sci-rna-seq3" →
      List.Perm (files.map FileEnt.file_subtype)
        ["FASTQ_READ1", "FASTQ_READ2", "FASTQ_INDEX1", "FASTQ_INDEX2"] →
      (files.map FileEnt.sample_id).dedup.length ≤ 1 →
      (files.map FileEnt.validated_dir).dedup.length ≤ 1 →
      FastqBundle.validate_contents files = { state := "VALID", errors := [] }) ∧
    (∀ (files : List FileEnt) (tech : String),
      (files.headD default).technique = tech →
      tech ≠ pyLower ("PacBio long read sequencing") →
      tech ≠ pyLower ("Oxford Nanopore long read sequencing") →
      pyLower tech ≠ "sci-rna-seq3" →
      List.Perm (files.map FileEnt.file_subtype)
        ["FASTQ_READ1", "FASTQ_READ2", "FASTQ_INDEX2"] →
      (files.map FileEnt.sample_id).dedup.length ≤ 1 →
      (files.map FileEnt.validated_dir).dedup.length ≤ 1 →
      FastqBundle.validate_contents files =
        { state := "INVALID", errors := [BErr.missing_subtype ("FASTQ_INDEX1")] }) := by
  constructor
  · intro files tech htech hp1 hp2 hsci hsub hsam hdir
    have hnd : (files.map FileEnt.file_subtype).Nodup := hsub.nodup_iff.mpr (by decide)
    simp only [FastqBundle.validate_contents]
    rw [validate_super_eq _ _ hsam hdir, dupSubtypeCheck_eq _ _ hnd, htech]
    rw [if_neg (by simp [hp1, hp2])]
    rw [if_neg hsci]
    simp only [hsub.mem_iff, requireSubtypes, List.foldl]
    decide
  · intro files tech htech hp1 hp2 hsci hsub hsam hdir
    have hnd : (files.map FileEnt.file_subtype).Nodup := hsub.nodup_iff.mpr (by decide)
    simp only [FastqBundle.validate_contents]
    rw [validate_super_eq _ _ hsam hdir, dupSubtypeCheck_eq _ _ hnd, htech]
    rw [if_neg (by simp [hp1, hp2])]
    rw [if_neg hsci]
    simp only [hsub.mem_iff, requireSubtypes, List.foldl]
    decide

/-- Witness for C3: both halves applied to concrete four- and three-file
groups. -/
theorem fastq_standard_completeness_witness :
    FastqBundle.validate_contents
      [fqFile ("FASTQ_READ1"), fqFile ("FASTQ_READ2"),
       fqFile ("FASTQ_INDEX1"), fqFile ("FASTQ_INDEX2")] =
      { state := "VALID", errors := [] } ∧
    FastqBundle.validate_contents
      [fqFile ("FASTQ_READ1"), fqFile ("FASTQ_READ2"), fqFile ("FASTQ_INDEX2")] =
      { state := "INVALID", errors := [BErr.missing_subtype ("FASTQ_INDEX1")] } :=
  ⟨fastq_standard_completeness.1 _ _ rfl (by decide) (by decide) (by decide)
      (by decide) (by decide) (by decide),
   fastq_standard_completeness.2 _ _ rfl (by decide) (by decide) (by decide)
      (by decide) (by decide) (by decide)⟩

/-- C4.  For an MEX candidate group with no duplicate subtypes and agreeing
sample/path metadata: BARCODES+PEAK+MTX is VALID (no GENES needed),
BARCODES+GENES+MTX is VALID (no PEAK needed), and BARCODES+MTX alone is
INVALID (the no-PEAK branch demands GENES). -/
theorem mex_peak_branch_completeness :
    (∀ files : List FileEnt,
      List.Perm (files.map FileEnt.file_subtype) ["MEX_BARCODES", "MEX_PEAK", "MEX_MTX"] →
      (files.map FileEnt.sample_id).dedup.length ≤ 1 →
      (files.map FileEnt.validated_dir).dedup.length ≤ 1 →
      MEXBundle.validate_contents files = { state := "VALID", errors := [] }) ∧
    (∀ files : List FileEnt,
      List.Perm (files.map FileEnt.file_subtype) ["MEX_BARCODES", "MEX_GENES", "MEX_MTX"] →
      (files.map FileEnt.sample_id).dedup.length ≤ 1 →
      (files.map FileEnt.validated_dir).dedup.length ≤ 1 →
      MEXBundle.validate_contents files = { state := "VALID", errors := [] }) ∧
    (∀ files : List FileEnt,
      List.Perm (files.map FileEnt.file_subtype) ["MEX_BARCODES", "MEX_MTX"] →
      (files.map FileEnt.sample_id).dedup.length ≤ 1 →
      (files.map FileEnt.validated_dir).dedup.length ≤ 1 →
      MEXBundle.validate_contents files =
        { state := "INVALID", errors := [BErr.missing_subtype ("MEX_GENES")] }) := by
  refine ⟨?_, ?_, ?_⟩ <;>
  · intro files hsub hsam hdir
    have hnd : (files.map FileEnt.file_subtype).Nodup := hsub.nodup_iff.mpr (by decide)
    simp only [MEXBundle.validate_contents]
    rw [validate_super_eq _ _ hsam hdir, dupSubtypeCheck_eq _ _ hnd]
    simp only [hsub.mem_iff, requireSubtypes, List.foldl]
    decide

/-- Witness for C4: the three statements applied to concrete groups. -/
theorem mex_peak_branch_completeness_witness :
    MEXBundle.validate_contents
      [mexFile ("MEX_BARCODES"), mexFile ("MEX_PEAK"), mexFile ("MEX_MTX")] =
      { state := "VALID", errors := [] } ∧
    MEXBundle.validate_contents
      [mexFile ("MEX_BARCODES"), mexFile ("MEX_GENES"), mexFile ("MEX_MTX")] =
      { state := "VALID", errors := [] } ∧
    MEXBundle.validate_contents
      [mexFile ("MEX_BARCODES"), mexFile ("MEX_MTX")] =
      { state := "INVALID", errors := [BErr.missing_subtype ("MEX_GENES")] } :=
  ⟨mex_peak_branch_completeness.1 _ (by decide) (by decide) (by decide),
   mex_peak_branch_completeness.2.1 _ (by decide) (by decide) (by decide),
   mex_peak_branch_completeness.2.2 _ (by decide) (by decide) (by decide)⟩

/-- C5.  The claim — a long-read FASTQ group with more than one distinct
subtype gets an error recorded and does not end VALID — fails on the code.
The guarding condition at bundle_entity.py line 472 tests
`"PacBio long read sequencing".lower() in file_uniq_subtypes`, i.e. membership
of the technique literal in the set of file *subtypes*; classification never
produces that string as a subtype, so the error is unreachable, and (the
error would not have set the state either) the bundle falls through to the
final `NOT BUNDLED -> VALID` step: a two-subtype PacBio group ends VALID
with no errors. -/
theorem pacbio_multi_subtype_ends_valid :
    FastqBundle.validate_contents [pacbioFile, pacbioFileR1] =
      { state := "VALID", errors := [] } ∧
    (pacbioFile.technique = pyLower ("PacBio long read sequencing") ∧
     pacbioFileR1.file_subtype ≠ pacbioFile.file_subtype) := by
  decide

/-! ## Claim theorems: classification and prefixes (C6-C8) -/

/-- C6 (counterexample).  The claim says every filename ending in the
cell-hash CSV suffix, with `nuc_hash.csv` given as the example, is
classified CELLHASH_CSV and never CSV.  On the code, the bare filename
`nuc_hash.csv` is classified CSV: the negative lookbehind of `CSV_PTRN` only
blocks `_nuc_hash` (nine characters, with the underscore), which cannot
match before `.csv` here, and the CSV entry precedes the CELLHASH_CSV entry
in `FILE_TYPE_LOOKUPS`. -/
theorem nuc_hash_csv_classified_csv :
    (findFirstMatch FILE_TYPE_LOOKUPS ("nuc_hash.csv".data)).map Prod.snd = some "CSV" ∧
    ((file_entity_factory ("10x genomics sequencing") ("nuc_hash.csv".data)).toOption.map
      FileEnt.file_subtype) = some "CSV" := by
  decide

/-- C6 (amended).  With the cell-hash CSV suffix as the code defines it —
`_nuc_hash.csv` / `_nuc_hash.csv.gz`, with the leading underscore — the two
kinds are assigned exclusively: every filename with that suffix is
classified CELLHASH_CSV and never CSV, and every other `.csv`/`.csv.gz`
filename is classified CSV and never CELLHASH_CSV. -/
theorem cellhash_csv_suffix_exclusive :
    (∀ name : List Char,
      "_nuc_hash.csv".data <:+ name ∨ "_nuc_hash.csv.gz".data <:+ name →
      (findFirstMatch FILE_TYPE_LOOKUPS name).map Prod.snd = some "CELLHASH_CSV") ∧
    (∀ name : List Char,
      (".csv".data <:+ name ∨ ".csv.gz".data <:+ name) →
      ¬ "_nuc_hash.csv".data <:+ name → ¬ "_nuc_hash.csv.gz".data <:+ name →
      (findFirstMatch FILE_TYPE_LOOKUPS name).map Prod.snd = some "CSV") := by
  constructor
  · rintro name (hs | hs)
    · obtain ⟨u, rfl⟩ := hs
      exact ffm_of_nuc_hash_csv u
    · obtain ⟨u, rfl⟩ := hs
      exact ffm_of_nuc_hash_csv_gz u
  · rintro name (hs | hs) hn1 hn2
    · obtain ⟨u, rfl⟩ := hs
      refine ffm_csv_plain u (fun hbad => hn1 ?_)
      have := suffix_append_right_of_suffix (t := ".csv".data) hbad
      rwa [(by decide : ("_nuc_hash".data ++ ".csv".data : List Char) = "_nuc_hash.csv".data)]
        at this
    · obtain ⟨u, rfl⟩ := hs
      refine ffm_csv_gz u (fun hbad => hn2 ?_)
      have := suffix_append_right_of_suffix (t := ".csv.gz".data) hbad
      rwa [(by decide :
        ("_nuc_hash".data ++ ".csv.gz".data : List Char) = "_nuc_hash.csv.gz".data)] at this

/-- Witness for C6 (amended): `sampleA_nuc_hash.csv` is claimed by
CELLHASH_CSV and `sample.csv` by CSV. -/
theorem cellhash_csv_suffix_exclusive_witness :
    (findFirstMatch FILE_TYPE_LOOKUPS ("sampleA_nuc_hash.csv".data)).map Prod.snd =
      some "CELLHASH_CSV" ∧
    (findFirstMatch FILE_TYPE_LOOKUPS ("sample.csv".data)).map Prod.snd = some "CSV" :=
  ⟨cellhash_csv_suffix_exclusive.1 _ (Or.inl (by decide)),
   cellhash_csv_suffix_exclusive.2 _ (Or.inl (by decide)) (by decide) (by decide)⟩

/-- C7.  Prefix reconstruction round trip: two classifiable FASTQ
filenames that differ only in their single role marker get the same file
prefix.  First part: the standard path (technique is not the cell-hashing
value) — the filenames are `h ++ marker ++ tail` with the same head `h` and
the same optional-suffix-plus-extension `tail`, the marker being the single
role occurrence (the uniqueness hypotheses pin the unique matching position
and role of each name to the shared head boundary).  Second part: the same
for the cell-hash technique path, where the pattern additionally contains
the sequencing-lane group `g` in front of the `_R1`-style marker.  Together
the two parts cover the classifiable FASTQ names: with the cell-hash
technique only the lane-form names classify, with any other technique the
role patterns decide. -/
theorem fastq_role_marker_prefix_roundtrip :
    (∀ (tech : String) (h m1 m2 tail : List Char) (r1 r2 : FRole),
      m1 ∈ roleMarkers r1 → m2 ∈ roleMarkers r2 → optThenExt tail = true →
      pyLower tech ≠ CELLHASH_TECH →
      (∀ i < (h ++ (m1 ++ tail)).length, ∀ r3 ∈ allRoles,
        (rolePat r3 ((h ++ (m1 ++ tail)).take i) ((h ++ (m1 ++ tail)).drop i)).isSome = true →
          i = h.length ∧ r3 = r1) →
      (∀ i < (h ++ (m2 ++ tail)).length, ∀ r3 ∈ allRoles,
        (rolePat r3 ((h ++ (m2 ++ tail)).take i) ((h ++ (m2 ++ tail)).drop i)).isSome = true →
          i = h.length ∧ r3 = r2) →
      h ≠ [] →
      Except.map FileEnt.file_pfx (file_entity_factory tech (h ++ (m1 ++ tail))) =
      Except.map FileEnt.file_pfx (file_entity_factory tech (h ++ (m2 ++ tail)))) ∧
    (∀ (tech : String) (h g tail : List Char) (r1 r2 : FRole),
      laneLen (g ++ (cellhashMarker r1 ++ tail)) = some g.length →
      laneLen (g ++ (cellhashMarker r2 ++ tail)) = some g.length →
      cellhashOptExt tail = true →
      pyLower tech = CELLHASH_TECH →
      (∀ i < (h ++ (g ++ (cellhashMarker r1 ++ tail))).length, ∀ r3 ∈ allRoles,
        (cellhashPat r3 ((h ++ (g ++ (cellhashMarker r1 ++ tail))).take i)
          ((h ++ (g ++ (cellhashMarker r1 ++ tail))).drop i)).isSome = true →
          i = h.length ∧ r3 = r1) →
      (∀ i < (h ++ (g ++ (cellhashMarker r2 ++ tail))).length, ∀ r3 ∈ allRoles,
        (cellhashPat r3 ((h ++ (g ++ (cellhashMarker r2 ++ tail))).take i)
          ((h ++ (g ++ (cellhashMarker r2 ++ tail))).drop i)).isSome = true →
          i = h.length ∧ r3 = r2) →
      h ≠ [] →
      Except.map FileEnt.file_pfx (file_entity_factory tech (h ++ (g ++ (cellhashMarker r1 ++ tail)))) =
      Except.map FileEnt.file_pfx (file_entity_factory tech (h ++ (g ++ (cellhashMarker r2 ++ tail))))) := by
  constructor
  · intro tech h m1 m2 tail r1 r2 hm1 hm2 hopt hct hU1 hU2 hh
    rw [factory_role tech _ h m1 tail r1 rfl hm1 hopt hct hU1 hh,
        factory_role tech _ h m2 tail r2 rfl hm2 hopt hct hU2 hh]
    rfl
  · intro tech h g tail r1 r2 hg1 hg2 hopt hct hU1 hU2 hh
    rw [factory_ch tech _ h g tail r1 rfl hg1 hopt hct hU1 hh,
        factory_ch tech _ h g tail r2 rfl hg2 hopt hct hU2 hh]
    rfl

/-- Witness for C7: `sample_R1.fastq.gz` and `sample_R2.fastq.gz` get the
same prefix. -/
theorem fastq_role_marker_prefix_roundtrip_witness :
    Except.map FileEnt.file_pfx
      (file_entity_factory ("10x genomics sequencing") ("sample_R1.fastq.gz".data)) =
    Except.map FileEnt.file_pfx
      (file_entity_factory ("10x genomics sequencing") ("sample_R2.fastq.gz".data)) :=
  fastq_role_marker_prefix_roundtrip.1 ("10x genomics sequencing") ("sample".data)
    ("_R1".data) ("_R2".data) (".fastq.gz".data) .R1 .R2
    (by decide) (by decide) (by decide) (by decide) (by decide) (by decide) (by decide)

/-- C8.  The claim — for split-token patterns the prefix is
`head + "-" + tail`, the dangling separator of the tail removed and the rest
of the tail left intact — fails on the code.  The `unsightly_chars` loop
over the second prefix half (file_entity.py lines 1081-1086) tests
`startswith` but slices `[:-1]`: it removes the *last* character of the
tail and keeps the leading separator.  For `expA_COLmeta_DIMRED-tsne.tab`
the code computes prefix `expA--tsn` where the claim demands `expA-tsne`.
(The identical loop in `move_to_validated`, lines 322-326, correctly slices
`[1:]`.) -/
theorem tab_dimred_second_half_chop_bug :
    ((file_entity_factory ("10x genomics sequencing")
        ("expA_COLmeta_DIMRED-tsne.tab".data)).toOption.map FileEnt.file_pfx) =
      some ("expA--tsn".data) ∧
    "expA--tsn".data ≠ "expA".data ++ ('-' :: "tsne".data) := by
  decide

/-! ## Claim theorems: manifest loop and set_state (C9-C10) -/

/-- C9.  The claim — a classification failure is local to one file and the
rows after it are still classified and bundled in the same pass — fails on
the code: the `try` of `Manifest.validate_manifest_file` wraps the *whole*
`for row in rows` loop (lines 474-492), so the `ValueError` raised for the
first row ends the loop before the second row is seen.  Evaluating the
embedded loop on `[badRow, goodRow]`: no entity at all is produced (in
particular none for `goodRow`, whose file name is classifiable on its own),
the `ValueError` is recorded, and the pass ends INVALID. -/
theorem classification_error_skips_later_rows :
    (Manifest.classify_rows [badRow, goodRow]).1 = [] ∧
    (Manifest.classify_rows [badRow, goodRow]).2.2 = true ∧
    ((file_entity_factory goodRow.technique goodRow.file_name).toOption.map
      FileEnt.file_subtype) = some "BAM" ∧
    (Manifest.validate_files_section [badRow, goodRow]).1 = "INVALID" := by
  decide

/-- C9 (amended).  A classification failure is recorded as the manifest's
error and invalidates the manifest without aborting the pass, and the loop
stops there: the rows before the failing row keep their entities (and only
those reach grouping/bundling), while the rows after it have no effect at
all on the result. -/
theorem classification_error_ends_row_loop (rows1 rows2 : List Row) (bad : Row) (msg : String)
    (h1 : ∀ r ∈ rows1, (file_entity_factory r.technique r.file_name).isOk = true)
    (hbad : file_entity_factory bad.technique bad.file_name = Except.error msg) :
    Manifest.classify_rows (rows1 ++ bad :: rows2) = Manifest.classify_rows (rows1 ++ [bad]) ∧
    (Manifest.classify_rows (rows1 ++ [bad])).2.2 = true ∧
    MErr.value_error msg ∈ (Manifest.classify_rows (rows1 ++ [bad])).2.1 ∧
    (Manifest.classify_rows (rows1 ++ [bad])).1 =
      rows1.filterMap (fun r => (file_entity_factory r.technique r.file_name).toOption.map
        (fun e => { e with sample_id := r.sample_id })) := by
  induction rows1 with
  | nil =>
    refine ⟨?_, ?_, ?_, ?_⟩ <;> simp [Manifest.classify_rows, hbad]
  | cons r rs ih =>
    have hr : (file_entity_factory r.technique r.file_name).isOk = true :=
      h1 r (List.mem_cons_self r rs)
    obtain ⟨ent, hent⟩ : ∃ ent, file_entity_factory r.technique r.file_name = Except.ok ent := by
      cases hx : file_entity_factory r.technique r.file_name with
      | error e => rw [hx] at hr; exact absurd hr (by simp [Except.isOk, Except.toBool])
      | ok ent => exact ⟨ent, rfl⟩
    obtain ⟨ih1, ih2, ih3, ih4⟩ := ih (fun x hx => h1 x (List.mem_cons_of_mem r hx))
    refine ⟨?_, ?_, ?_, ?_⟩
    · simp only [List.cons_append, Manifest.classify_rows, hent, List.append_eq, ih1]
    · simp only [List.cons_append, Manifest.classify_rows, hent, List.append_eq]
      simpa using ih2
    · simp only [List.cons_append, Manifest.classify_rows, hent, List.append_eq]
      simp only [List.mem_append]
      right
      simpa using ih3
    · simp only [List.cons_append, Manifest.classify_rows, hent, List.append_eq,
        List.filterMap_cons, ih4]
      rfl

/-- Witness for C9 (amended): one good row before the failing row, one good
row after it. -/
theorem classification_error_ends_row_loop_witness :
    Manifest.classify_rows [goodRow, badRow, goodRow] =
      Manifest.classify_rows [goodRow, badRow] ∧
    (Manifest.classify_rows [goodRow, badRow]).2.2 = true ∧
    MErr.value_error ("ValueError: cannot determine filetype") ∈
      (Manifest.classify_rows [goodRow, badRow]).2.1 ∧
    (Manifest.classify_rows [goodRow, badRow]).1 =
      [goodRow].filterMap (fun r => (file_entity_factory r.technique r.file_name).toOption.map
        (fun e => { e with sample_id := r.sample_id })) :=
  classification_error_ends_row_loop [goodRow] [goodRow] badRow
    ("ValueError: cannot determine filetype") (by decide) rfl

/-- C10.  The claim — both `set_state` methods always assign the new state,
recording/logging a mismatch — holds for `FileBundle.set_state` but fails
for `FileEntity.set_state`: for an unknown state, `record_error` sets the
`error` attribute and then raises `AttributeError` on `self.logger`
(validation-mode entities have no such attribute; non-validation entities
never finish construction, file_entity.py lines 93-97), so the assignment
is never reached and unknown states are unreachable through
`FileEntity.set_state`. -/
theorem set_state_assignment_behaviour :
    (FileEntity.set_state FileEntity.init ("BOGUS")).1.state = "NOT SUBMITTED" ∧
    (FileEntity.set_state FileEntity.init ("BOGUS")).2 = some ("AttributeError") ∧
    (FileEntity.set_state FileEntity.init ("BOGUS")).1.error.isSome = true ∧
    (FileEntity.set_state FileEntity.init ("VALID")).1.state = "VALID" ∧
    (FileBundle.set_state FileBundle.init ("BOGUS")).state = "BOGUS" ∧
    FileBundle.set_state_logs true ("BOGUS") = true ∧
    FileBundle.set_state_logs true ("VALID") = false := by
  decide
